import Mathlib

/-!
# Player physics: velocity update and jump input gate

Shallow embedding of the two versions of the velocity model

* `Initial`  : `src/main.cpp`      (no slope factor, no speed cap)
* `Refined`  : `src/src/main.cpp`  (slope factor, slope projection, speed cap, jump gate)

Numbers: the C++ code computes in `float`.  The embedding is written over an
arbitrary linearly ordered field `α` and takes the square root used by
`NiVector3::Length` as a parameter `sqrt : α → α`, so every definition below is
an ordinary computable function.  The theorems instantiate `α := ℝ` and
`sqrt := Real.sqrt`, i.e. they are statements about the exact-arithmetic
reading of the code; rounding is not modelled.

Constants: the input-length test of `UpdateVelocity` uses the exact value of the
`float` literal `1e-4f`, `float_1e_4 = 13743895 / 2^37`, which is smaller than
`1/10000`.

Division: `/` is the field's division.  Where the code can reach a division
whose divisor is zero (`friction / speed` at speed `0`), or where a statement is
about a divisor (`-dot / normal.z`), instrumented copies of the functions
(`ApplyFrictionTraced`, `GetMoveVectorTraced`, `…_frictionDivisors`) return the
divisors of the divisions that are evaluated, and the statements are made about
those; no claim is settled through the value of a quotient with divisor `0`.
-/

namespace PlayerPhysics

/-! ## Vector primitives (engine headers, not part of the repository sources) -/

/-- Modelled from the spec: the engine's three-lane vector `NiVector3`
(section 2, VectorMath: length, dot product, cross product, normalize, scale). -/
structure NiVector3 (α : Type) where
  x : α
  y : α
  z : α

/-- Modelled from the spec: the engine's `AlignedVector4`, a 3D vector with an
implicit fourth padding lane `w` (section 3, MoveParams). -/
structure AlignedVector4 (α : Type) where
  x : α
  y : α
  z : α
  w : α

section VectorMath

variable {α : Type} [LinearOrderedField α]

/-- The cast `(NiVector3&)v`, also the conversion `NiVector3(v)`: the first three lanes. -/
def AlignedVector4.toNi (v : AlignedVector4 α) : NiVector3 α :=
  ⟨v.x, v.y, v.z⟩

/-- Modelled from the spec: the constructor `AlignedVector4(NiVector3)`; the padding
lane is taken to be `0`. -/
def AlignedVector4.ofNi (v : NiVector3 α) : AlignedVector4 α :=
  ⟨v.x, v.y, v.z, 0⟩

/-- Lane-wise `a + b` (`operator+`, `operator+=`) on four lanes. -/
def AlignedVector4.add (a b : AlignedVector4 α) : AlignedVector4 α :=
  ⟨a.x + b.x, a.y + b.y, a.z + b.z, a.w + b.w⟩

/-- Lane-wise `a - b` (`operator-=`) on four lanes. -/
def AlignedVector4.sub (a b : AlignedVector4 α) : AlignedVector4 α :=
  ⟨a.x - b.x, a.y - b.y, a.z - b.z, a.w - b.w⟩

/-- Scaling `v * k` (`operator*`, `operator*=`) on four lanes. -/
def AlignedVector4.scale (v : AlignedVector4 α) (k : α) : AlignedVector4 α :=
  ⟨v.x * k, v.y * k, v.z * k, v.w * k⟩

/-- The value `AlignedVector4(0, 0, 0, 0)`. -/
def AlignedVector4.zero : AlignedVector4 α :=
  ⟨0, 0, 0, 0⟩

instance : Add (AlignedVector4 α) := ⟨AlignedVector4.add⟩
instance : Sub (AlignedVector4 α) := ⟨AlignedVector4.sub⟩
instance : HMul (AlignedVector4 α) α (AlignedVector4 α) := ⟨AlignedVector4.scale⟩

/-- Scaling `v * k` of a three-lane vector. -/
def NiVector3.scale (v : NiVector3 α) (k : α) : NiVector3 α :=
  ⟨v.x * k, v.y * k, v.z * k⟩

instance : HMul (NiVector3 α) α (NiVector3 α) := ⟨NiVector3.scale⟩

/-- Modelled from the spec: `NiVector3::DotProduct`. -/
def NiVector3.DotProduct (a b : NiVector3 α) : α :=
  a.x * b.x + a.y * b.y + a.z * b.z

/-- Modelled from the spec: `NiVector3::CrossProduct`. -/
def NiVector3.CrossProduct (a b : NiVector3 α) : NiVector3 α :=
  ⟨a.y * b.z - a.z * b.y, a.z * b.x - a.x * b.z, a.x * b.y - a.y * b.x⟩

/-- Modelled from the spec: `NiVector3::Length`, the square root of the sum of the
squared lanes; the square root is the parameter `sqrt`. -/
def NiVector3.Length (sqrt : α → α) (v : NiVector3 α) : α :=
  sqrt (v.x * v.x + v.y * v.y + v.z * v.z)

/-- Modelled from the spec: `NiVector3::Normalize`, `v / |v|` lane by lane. -/
def NiVector3.Normalize (sqrt : α → α) (v : NiVector3 α) : NiVector3 α :=
  ⟨v.x / v.Length sqrt, v.y / v.Length sqrt, v.z / v.Length sqrt⟩

end VectorMath

/-! ## Data model -/

/-- Modelled from the spec: `hkpCharacterState::StateType` (section 3, ControllerState:
OnGround, InAir, Climbing, Jumping and further states). -/
inductive StateType where
  | kState_OnGround
  | kState_Jumping
  | kState_InAir
  | kState_Climbing
  | kState_Flying
  | kState_Other (n : Nat)
  deriving DecidableEq, Repr

open StateType

/-- The record `CharacterMoveParams` (identical in both source files). -/
structure CharacterMoveParams (α : Type) where
  multiplier : α
  forward : AlignedVector4 α
  up : AlignedVector4 α
  groundNormal : AlignedVector4 α
  velocity : AlignedVector4 α
  input : AlignedVector4 α
  maxSpeed : α
  surfaceVelocity : AlignedVector4 α

/-- Modelled from the spec: the part of `bhkCharacterController` the hooks read:
its address (`handle`, compared as a pointer), `wantState`, `chrContext.hkState`
and `stepInfo.deltaTime`. -/
structure bhkCharacterController (α : Type) where
  handle : Nat
  wantState : StateType
  hkState : StateType
  deltaTime : α

/-- Modelled from the spec: the host globals read by `ShouldUsePhysics`: the address
returned by `PlayerCharacter::GetSingleton()->GetCharacterController()` and
`VATSCameraData::Get()->mode`. -/
structure Host where
  playerController : Nat
  vatsMode : Nat

/-- The `float` literal `1e-4f` of both source files: the single-precision value nearest
to `0.0001`, which is exactly `13743895 / 2^37` (about `9.99999975e-5`, slightly below
`1/10000`). -/
def float_1e_4 {α : Type} [LinearOrderedField α] : α :=
  13743895 / 2 ^ 37

/-! ## Initial model (`src/main.cpp`) -/

namespace Initial

section

variable {α : Type} [LinearOrderedField α]

/-- Constant `ini::fFriction = 5.f`. -/
def fFriction : α := 5
/-- Constant `ini::fAcceleration = 6.f`. -/
def fAcceleration : α := 6
/-- Constant `ini::fAirAcceleration = 10.f`. -/
def fAirAcceleration : α := 10
/-- Constant `ini::fStopSpeed = 8.f`. -/
def fStopSpeed : α := 8
/-- Constant `ini::fAirSpeed = .1f`. -/
def fAirSpeed : α := 1 / 10

/-- Function `ApplyFriction` of `src/main.cpp`, returning the new `*velocity`.  When the
second branch is reached with `speed = 0` (negative friction) the quotient
`friction / speed` has no real value, and the value of this definition there is not
the code's; the statements below exclude that case by their hypotheses or equate two
occurrences of the same expression (see `ApplyFrictionTraced` for the divisors). -/
def ApplyFriction (sqrt : α → α) (_move : CharacterMoveParams α)
    (velocity : AlignedVector4 α) (deltaTime : α) : AlignedVector4 α :=
  let speed := velocity.toNi.Length sqrt
  let friction := fFriction * max speed fStopSpeed * deltaTime
  if friction ≥ speed then
    AlignedVector4.zero
  else
    velocity * (1 - friction / speed)

/-- Function `ApplyAcceleration` of `src/main.cpp`, returning the new `*velocity`. -/
def ApplyAcceleration (_move : CharacterMoveParams α)
    (velocity : AlignedVector4 α) (state : StateType) (moveVector : NiVector3 α)
    (moveLength deltaTime : α) : AlignedVector4 α :=
  let inAir := decide (state = kState_InAir)
  let speed := velocity.toNi.DotProduct moveVector
  let maxSpeed := if inAir then moveLength * fAirSpeed else moveLength
  if speed < maxSpeed then
    let accelMultiplier : α := if inAir then fAirAcceleration else fAcceleration
    let accel := accelMultiplier * moveLength * deltaTime
    velocity + AlignedVector4.ofNi (moveVector * min accel (maxSpeed - speed))
  else
    velocity

/-- Function `UpdateVelocity` of `src/main.cpp`, returning the new `*velocity`.  The test
`moveLength < 1e-4f` compares with the exact value of the `float` literal. -/
def UpdateVelocity (sqrt : α → α) (move : CharacterMoveParams α)
    (velocity : AlignedVector4 α) (state : StateType) (deltaTime : α) :
    AlignedVector4 α :=
  let velocity :=
    if state ≠ kState_InAir then ApplyFriction sqrt move velocity deltaTime else velocity
  let moveLength := move.input.toNi.Length sqrt
  if moveLength < float_1e_4 then
    velocity
  else
    let input : AlignedVector4 α := move.input * (1 / moveLength)
    let forward := move.forward
    let up := move.up
    let right := AlignedVector4.ofNi (forward.toNi.CrossProduct up.toNi)
    let moveVector := forward * (-input.x) + right * input.y + up * input.z
    ApplyAcceleration move velocity state moveVector.toNi moveLength deltaTime

/-- Function `hook_MoveCharacter` of `src/main.cpp`.  The original function (address
`0xD6AEF0`) is the parameter `orig`; it receives pointers to the record and to the
velocity, so it maps the pair to the pair it leaves behind.  The result is the pair
(`move`, `*velocity`) after the call. -/
def hook_MoveCharacter (sqrt : α → α) (host : Host)
    (orig : CharacterMoveParams α → AlignedVector4 α →
      CharacterMoveParams α × AlignedVector4 α)
    (charCtrl : bhkCharacterController α) (move : CharacterMoveParams α)
    (velocity : AlignedVector4 α) : CharacterMoveParams α × AlignedVector4 α :=
  if charCtrl.handle ≠ host.playerController then
    orig move velocity
  else
    let state := charCtrl.hkState
    let deltaTime := charCtrl.deltaTime
    let velocity := velocity - move.surfaceVelocity
    let velocity := UpdateVelocity sqrt move velocity state deltaTime
    let velocity := velocity + move.surfaceVelocity
    (move, velocity)

/-- Function `ApplyFriction` of `src/main.cpp`, instrumented: the new `*velocity`
together with the divisors of the divisions `friction / speed` it evaluates. -/
def ApplyFrictionTraced (sqrt : α → α) (_move : CharacterMoveParams α)
    (velocity : AlignedVector4 α) (deltaTime : α) : AlignedVector4 α × List α :=
  let speed := velocity.toNi.Length sqrt
  let friction := fFriction * max speed fStopSpeed * deltaTime
  if friction ≥ speed then
    (AlignedVector4.zero, [])
  else
    (velocity * (1 - friction / speed), [speed])

/-- Divisors of the divisions `friction / speed` evaluated by `UpdateVelocity` of
`src/main.cpp` (the friction step runs only when the state is not `InAir`). -/
def UpdateVelocity_frictionDivisors (sqrt : α → α) (move : CharacterMoveParams α)
    (velocity : AlignedVector4 α) (state : StateType) (deltaTime : α) : List α :=
  if state ≠ kState_InAir then (ApplyFrictionTraced sqrt move velocity deltaTime).2 else []

/-- Divisors of the divisions `friction / speed` evaluated by `hook_MoveCharacter` of
`src/main.cpp`. -/
def hook_MoveCharacter_frictionDivisors (sqrt : α → α) (host : Host)
    (charCtrl : bhkCharacterController α) (move : CharacterMoveParams α)
    (velocity : AlignedVector4 α) : List α :=
  if charCtrl.handle ≠ host.playerController then
    []
  else
    UpdateVelocity_frictionDivisors sqrt move (velocity - move.surfaceVelocity)
      charCtrl.hkState charCtrl.deltaTime

end

end Initial

/-! ## Refined model (`src/src/main.cpp`) -/

namespace Refined

section

variable {α : Type} [LinearOrderedField α]

/-- Constant `ini::fFriction = 5.f`. -/
def fFriction : α := 5
/-- Constant `ini::fAcceleration = 6.f`. -/
def fAcceleration : α := 6
/-- Constant `ini::fAirAcceleration = 1.f`. -/
def fAirAcceleration : α := 1
/-- Constant `ini::fStopSpeed = 8.f`. -/
def fStopSpeed : α := 8
/-- Constant `ini::fAirSpeed = 1.f`. -/
def fAirSpeed : α := 1

/-- Function `ApplyFriction` of `src/src/main.cpp`, returning the new `*velocity`.  When
the second branch is reached with `speed = 0` (negative friction) the quotient
`friction / speed` has no real value, and the value of this definition there is not
the code's; the statements below exclude that case by their hypotheses or equate two
occurrences of the same expression (see `ApplyFrictionTraced` for the divisors). -/
def ApplyFriction (sqrt : α → α) (move : CharacterMoveParams α)
    (velocity : AlignedVector4 α) (deltaTime : α) : AlignedVector4 α :=
  let speed := velocity.toNi.Length sqrt
  let scaleSpeed := max speed fStopSpeed
  let friction := fFriction * scaleSpeed * move.groundNormal.z * deltaTime
  if friction ≥ speed then
    AlignedVector4.zero
  else
    velocity * (1 - friction / speed)

/-- Function `ApplyAcceleration` of `src/src/main.cpp`, returning the new `*velocity`. -/
def ApplyAcceleration (sqrt : α → α) (move : CharacterMoveParams α)
    (velocity : AlignedVector4 α) (state : StateType) (moveVector : NiVector3 α)
    (moveLength deltaTime : α) : AlignedVector4 α :=
  let inAir := decide (state = kState_InAir)
  let speed := velocity.toNi.DotProduct moveVector
  let maxSpeed := if inAir then moveLength * fAirSpeed else moveLength
  let speedCap := max maxSpeed (velocity.toNi.Length sqrt)
  if speed ≥ maxSpeed then
    velocity
  else
    let accelMultiplier : α := if inAir then fAirAcceleration else fAcceleration
    let accel := accelMultiplier * moveLength * move.groundNormal.z * deltaTime
    let velocity := velocity + AlignedVector4.ofNi (moveVector * min accel (maxSpeed - speed))
    let newLength := velocity.toNi.Length sqrt
    if newLength > speedCap then
      velocity * (speedCap / newLength)
    else
      velocity

/-- Function `GetMoveVector` of `src/src/main.cpp`.  The two tests on `normal.z` are
written with the decimal bounds `1/10000` and `1 - 1/10000`; the `float` constants of
the source, `1e-4f = 13743895 / 2^37` and `1.f - 1e-4f = 8387769 / 2^23`, lie just
below them.  Every `float` that is `≤ 1/10000` is `≤ 1e-4f` and every `float` that is
`≥ 1 - 1/10000` is `≥ 1.f - 1e-4f`, so a `float` input that takes the first branch here
takes it in the source, and a divisor `normal.z` of the source exceeds `1/10000`; the
only `float` on which the two tests differ is `normal.z = 8387769 / 2^23`. -/
def GetMoveVector (sqrt : α → α) (move : CharacterMoveParams α) : AlignedVector4 α :=
  let input := move.input
  let forward := move.forward
  let up := move.up
  let right := AlignedVector4.ofNi (forward.toNi.CrossProduct up.toNi)
  let moveVectorRaw := forward * (-input.x) + right * input.y + up * input.z
  let moveVector := moveVectorRaw.toNi.Normalize sqrt
  let normal := move.groundNormal
  if normal.z ≤ 1 / 10000 ∨ normal.z ≥ 1 - 1 / 10000 then
    AlignedVector4.ofNi moveVector
  else
    let dot := moveVector.DotProduct normal.toNi
    AlignedVector4.ofNi
      (NiVector3.Normalize sqrt ⟨moveVector.x, moveVector.y, -dot / normal.z⟩)

/-- Function `UpdateVelocity` of `src/src/main.cpp`, returning the new `*velocity`.  The
test `moveLength >= 1e-4f` compares with the exact value of the `float` literal. -/
def UpdateVelocity (sqrt : α → α) (move : CharacterMoveParams α)
    (velocity : AlignedVector4 α) (state : StateType) (deltaTime : α) :
    AlignedVector4 α :=
  let velocity :=
    if state ≠ kState_InAir then ApplyFriction sqrt move velocity deltaTime else velocity
  let moveLength := move.input.toNi.Length sqrt
  if moveLength ≥ float_1e_4 then
    let moveVector := GetMoveVector sqrt move
    ApplyAcceleration sqrt move velocity state moveVector.toNi moveLength deltaTime
  else
    velocity

/-! ### Physics gate and the movement hook -/

/-- Function `ShouldUsePhysics` of `src/src/main.cpp`. -/
def ShouldUsePhysics (host : Host) (charCtrl : bhkCharacterController α) : Bool :=
  charCtrl.handle == host.playerController && host.vatsMode == 0

/-- Function `hook_MoveCharacter` of `src/src/main.cpp`.  The original function
(`HookGetOriginal()`) is the parameter `orig`; it receives pointers to the record and
to the velocity, so it maps the pair to the pair it leaves behind.  The result
is the pair (`*move`, `*velocity`) after the call. -/
def hook_MoveCharacter (sqrt : α → α) (host : Host)
    (orig : CharacterMoveParams α → AlignedVector4 α →
      CharacterMoveParams α × AlignedVector4 α)
    (charCtrl : bhkCharacterController α) (move : CharacterMoveParams α)
    (velocity : AlignedVector4 α) : CharacterMoveParams α × AlignedVector4 α :=
  if !ShouldUsePhysics host charCtrl then
    orig move velocity
  else
    let state := charCtrl.hkState
    let deltaTime := charCtrl.deltaTime
    let velocity := velocity - move.surfaceVelocity
    let velocity := UpdateVelocity sqrt move velocity state deltaTime
    let velocity := velocity + move.surfaceVelocity
    if state = kState_OnGround then
      ({ move with velocity := { move.velocity with z := velocity.z } }, velocity)
    else
      (move, velocity)

/-- Function `ApplyFriction` of `src/src/main.cpp`, instrumented: the new `*velocity`
together with the divisors of the divisions `friction / speed` it evaluates. -/
def ApplyFrictionTraced (sqrt : α → α) (move : CharacterMoveParams α)
    (velocity : AlignedVector4 α) (deltaTime : α) : AlignedVector4 α × List α :=
  let speed := velocity.toNi.Length sqrt
  let scaleSpeed := max speed fStopSpeed
  let friction := fFriction * scaleSpeed * move.groundNormal.z * deltaTime
  if friction ≥ speed then
    (AlignedVector4.zero, [])
  else
    (velocity * (1 - friction / speed), [speed])

/-- Function `GetMoveVector` of `src/src/main.cpp`, instrumented: the result together
with the divisors of the divisions `-dot / normal.z` it evaluates. -/
def GetMoveVectorTraced (sqrt : α → α) (move : CharacterMoveParams α) :
    AlignedVector4 α × List α :=
  let input := move.input
  let forward := move.forward
  let up := move.up
  let right := AlignedVector4.ofNi (forward.toNi.CrossProduct up.toNi)
  let moveVectorRaw := forward * (-input.x) + right * input.y + up * input.z
  let moveVector := moveVectorRaw.toNi.Normalize sqrt
  let normal := move.groundNormal
  if normal.z ≤ 1 / 10000 ∨ normal.z ≥ 1 - 1 / 10000 then
    (AlignedVector4.ofNi moveVector, [])
  else
    let dot := moveVector.DotProduct normal.toNi
    (AlignedVector4.ofNi
      (NiVector3.Normalize sqrt ⟨moveVector.x, moveVector.y, -dot / normal.z⟩),
      [normal.z])

/-- Divisors of the divisions `friction / speed` evaluated by `UpdateVelocity` of
`src/src/main.cpp` (the friction step runs only when the state is not `InAir`). -/
def UpdateVelocity_frictionDivisors (sqrt : α → α) (move : CharacterMoveParams α)
    (velocity : AlignedVector4 α) (state : StateType) (deltaTime : α) : List α :=
  if state ≠ kState_InAir then (ApplyFrictionTraced sqrt move velocity deltaTime).2 else []

/-- Divisors of the divisions `friction / speed` evaluated by `hook_MoveCharacter` of
`src/src/main.cpp`. -/
def hook_MoveCharacter_frictionDivisors (sqrt : α → α) (host : Host)
    (charCtrl : bhkCharacterController α) (move : CharacterMoveParams α)
    (velocity : AlignedVector4 α) : List α :=
  if !ShouldUsePhysics host charCtrl then
    []
  else
    UpdateVelocity_frictionDivisors sqrt move (velocity - move.surfaceVelocity)
      charCtrl.hkState charCtrl.deltaTime

end

/-! ### Jump input gate -/

/-- The enum `ControlState`. -/
inductive ControlState where
  | kControlState_Held
  | kControlState_Pressed
  deriving DecidableEq, Repr

open ControlState

/-- The global `g_player`: the single flag `usedJumpInput`. -/
structure Player where
  usedJumpInput : Bool
  deriving DecidableEq, Repr

/-- Initial value of the global `g_player` (`bool usedJumpInput = true`). -/
def g_player : Player :=
  ⟨true⟩

/-- One call of the original button check: input source, key, requested control state. -/
abbrev ButtonCall := Nat × Int × ControlState

/-- Outcome of `hook_CheckJumpButton`: the returned `int`, the global afterwards and
the calls made to the original function, in order. -/
structure CheckOutcome where
  ret : Int
  player : Player
  calls : List ButtonCall
  deriving DecidableEq, Repr

/-- Function `hook_CheckJumpButton` of `src/src/main.cpp`.  The original button check
(`HookGetOriginal()`) is the parameter `orig`; an `int` is true when it is not `0`,
`return true` is `1` and `return false` is `0`. -/
def hook_CheckJumpButton (orig : Nat → Int → ControlState → Int) (g : Player)
    (input : Nat) (key : Int) (_state : ControlState) : CheckOutcome :=
  if orig input key kControlState_Pressed ≠ 0 then
    ⟨1, { g with usedJumpInput := false }, [(input, key, kControlState_Pressed)]⟩
  else if g.usedJumpInput then
    ⟨0, g, [(input, key, kControlState_Pressed)]⟩
  else
    ⟨orig input key kControlState_Held, g,
      [(input, key, kControlState_Pressed), (input, key, kControlState_Held)]⟩

/-- Function `WillJump` of `src/src/main.cpp`. -/
def WillJump {α : Type} (charCtrl : bhkCharacterController α) : Bool :=
  match charCtrl.wantState with
  | kState_OnGround => false
  | kState_Climbing => false
  | _ => true

/-- Outcome of `hook_bhkCharacterStateJumping_UpdateVelocity`: the global afterwards
and the calls made to the original update (jumping-state address, controller). -/
structure JumpOutcome (α : Type) where
  player : Player
  calls : List (Nat × bhkCharacterController α)

/-- Function `hook_bhkCharacterStateJumping_UpdateVelocity` of `src/src/main.cpp`. -/
def hook_bhkCharacterStateJumping_UpdateVelocity {α : Type} (host : Host) (g : Player)
    (state : Nat) (charCtrl : bhkCharacterController α) : JumpOutcome α :=
  let g := if ShouldUsePhysics host charCtrl && WillJump charCtrl then
      { g with usedJumpInput := true }
    else
      g
  ⟨g, [(state, charCtrl)]⟩

/-- One operation on the jump input gate: a button check (with the original check as
it answers at that moment) or a jump-state update. -/
inductive GateOp (α : Type) where
  | check (orig : Nat → Int → ControlState → Int) (input : Nat) (key : Int)
      (state : ControlState)
  | jumpUpdate (host : Host) (state : Nat) (charCtrl : bhkCharacterController α)

/-- Run one gate operation: the global afterwards and, for a button check, the value
it returned. -/
def stepGate {α : Type} (g : Player) : GateOp α → Player × Option Int
  | .check orig input key state =>
      let r := hook_CheckJumpButton orig g input key state
      (r.player, some r.ret)
  | .jumpUpdate host state charCtrl =>
      ((hook_bhkCharacterStateJumping_UpdateVelocity host g state charCtrl).player, none)

/-- Run a sequence of gate operations from the global `g`: the global afterwards and
the values returned by the button checks, in order (`none` for a jump-state update). -/
def runGate {α : Type} (g : Player) : List (GateOp α) → Player × List (Option Int)
  | [] => (g, [])
  | op :: ops =>
      let r := stepGate g op
      let rest := runGate r.1 ops
      (rest.1, r.2 :: rest.2)

/-- Whether a gate operation is a button check whose fresh-press check (the original
check asked for `kControlState_Pressed`) reports true. -/
def GateOp.freshPress {α : Type} : GateOp α → Bool
  | .check orig input key _ => decide (orig input key kControlState_Pressed ≠ 0)
  | .jumpUpdate _ _ _ => false

/-- What a swallowed operation yields: `false` (`0`) for a button check, nothing for a
jump-state update. -/
def GateOp.swallowed {α : Type} : GateOp α → Option Int
  | .check _ _ _ _ => some 0
  | .jumpUpdate _ _ _ => none

/-- Original button check that answers by control state only: `pressed` when asked
for a fresh press, `held` when asked for a held key. -/
def buttonOracle (pressed held : Int) : Nat → Int → ControlState → Int :=
  fun _ _ s =>
    match s with
    | kControlState_Pressed => pressed
    | kControlState_Held => held

/-- Controller with the given address and pending state, on the ground, time step `0`. -/
def controllerWanting (handle : Nat) (want : StateType) : bhkCharacterController Int :=
  { handle := handle, wantState := want, hkState := kState_OnGround, deltaTime := 0 }

/-- Whether a gate operation is a jump-state update that consumes the gate, that is,
one for which `ShouldUsePhysics` holds and `WillJump` is true. -/
def GateOp.consumes {α : Type} : GateOp α → Bool
  | .check _ _ _ _ => false
  | .jumpUpdate host _ charCtrl => ShouldUsePhysics host charCtrl && WillJump charCtrl

/-- What the underlying held check reports at a gate operation: its answer for
`kControlState_Held` at a button check, nothing for a jump-state update. -/
def GateOp.heldResult {α : Type} : GateOp α → Option Int
  | .check orig input key _ => some (orig input key kControlState_Held)
  | .jumpUpdate _ _ _ => none

/-- Number of button checks in a run that returned true (a non-zero `int`). -/
def trueCount : List (Option Int) → Nat
  | [] => 0
  | some r :: rest => (if r ≠ 0 then 1 else 0) + trueCount rest
  | none :: rest => trueCount rest

end Refined

/-! ## Concrete inputs used in the scenarios below -/

/-- Move-parameters record with the given ground normal and everything else zero. -/
def moveWithNormal {α : Type} [LinearOrderedField α] (n : AlignedVector4 α) :
    CharacterMoveParams α :=
  { multiplier := 0, forward := ⟨0, 0, 0, 0⟩, up := ⟨0, 0, 0, 0⟩, groundNormal := n,
    velocity := ⟨0, 0, 0, 0⟩, input := ⟨0, 0, 0, 0⟩, maxSpeed := 0,
    surfaceVelocity := ⟨0, 0, 0, 0⟩ }

/-- Move-parameters record on flat ground: input `(0, 1, 0)`, forward `(0, 1, 0)`,
up `(0, 0, 1)`, ground normal `(0, 0, 1)`. -/
def flatMove {α : Type} [LinearOrderedField α] : CharacterMoveParams α :=
  { multiplier := 1, forward := ⟨0, 1, 0, 0⟩, up := ⟨0, 0, 1, 0⟩,
    groundNormal := ⟨0, 0, 1, 0⟩, velocity := ⟨0, 0, 0, 0⟩,
    input := ⟨0, 1, 0, 0⟩, maxSpeed := 0, surfaceVelocity := ⟨0, 0, 0, 0⟩ }

/-- Move-parameters record on a slope: input `(0, 1, 0)`, forward `(0, 1, 0)`,
up `(0, 0, 1)`, ground normal `(0, 3/5, 4/5)`. -/
def slopeMove {α : Type} [LinearOrderedField α] : CharacterMoveParams α :=
  { multiplier := 1, forward := ⟨0, 1, 0, 0⟩, up := ⟨0, 0, 1, 0⟩,
    groundNormal := ⟨0, 3 / 5, 4 / 5, 0⟩, velocity := ⟨0, 0, 0, 0⟩,
    input := ⟨0, 1, 0, 0⟩, maxSpeed := 0, surfaceVelocity := ⟨0, 0, 0, 0⟩ }

/-- Move-parameters record on a slope with an input that has a vertical part:
input `(0, 3, 4)`, forward `(0, 1, 0)`, up `(0, 0, 1)`, ground normal `(0, 3/5, 4/5)`. -/
def climbingInputMove {α : Type} [LinearOrderedField α] : CharacterMoveParams α :=
  { multiplier := 1, forward := ⟨0, 1, 0, 0⟩, up := ⟨0, 0, 1, 0⟩,
    groundNormal := ⟨0, 3 / 5, 4 / 5, 0⟩, velocity := ⟨0, 0, 0, 0⟩,
    input := ⟨0, 3, 4, 0⟩, maxSpeed := 0, surfaceVelocity := ⟨0, 0, 0, 0⟩ }

/-- Move-parameters record on flat ground whose input has exactly the length of the
`float` constant `1e-4f`: input `(0, 1e-4f, 0)`, forward `(0, 1, 0)`, up `(0, 0, 1)`,
ground normal `(0, 0, 1)`, surface velocity `s`. -/
def thresholdInputMove {α : Type} [LinearOrderedField α] (s : AlignedVector4 α) :
    CharacterMoveParams α :=
  { multiplier := 1, forward := ⟨0, 1, 0, 0⟩, up := ⟨0, 0, 1, 0⟩,
    groundNormal := ⟨0, 0, 1, 0⟩, velocity := ⟨0, 0, 0, 0⟩,
    input := ⟨0, float_1e_4, 0, 0⟩, maxSpeed := 0, surfaceVelocity := s }

/-- Move-parameters record on a moving surface: ground normal `n`, surface velocity
`s`, no input, everything else zero. -/
def platformMove {α : Type} [LinearOrderedField α] (n s : AlignedVector4 α) :
    CharacterMoveParams α :=
  { multiplier := 0, forward := ⟨0, 0, 0, 0⟩, up := ⟨0, 0, 0, 0⟩, groundNormal := n,
    velocity := ⟨0, 0, 0, 0⟩, input := ⟨0, 0, 0, 0⟩, maxSpeed := 0,
    surfaceVelocity := s }

/-- The player's controller (address `7`) in the given state with the given time step. -/
def playerControllerIn {α : Type} (state : StateType) (deltaTime : α) :
    bhkCharacterController α :=
  { handle := 7, wantState := state, hkState := state, deltaTime := deltaTime }

/-- Host globals in which the player's controller has address `7` and the VATS camera
mode is `mode`. -/
def hostWithMode (mode : Nat) : Host :=
  { playerController := 7, vatsMode := mode }

/-- An original movement function: it overwrites the velocity with the record's
`velocity` field and leaves the record alone. -/
def restoreVelocity {α : Type} (move : CharacterMoveParams α) (_velocity : AlignedVector4 α) :
    CharacterMoveParams α × AlignedVector4 α :=
  (move, move.velocity)

/-- A velocity clamped to the speed cap `c`: unchanged when its length is at most
`c`, otherwise rescaled by `c / length` (to length `c`). -/
def clampLength {α : Type} [LinearOrderedField α] (sqrt : α → α) (v : AlignedVector4 α)
    (c : α) : AlignedVector4 α :=
  if v.toNi.Length sqrt ≤ c then v else v * (c / v.toNi.Length sqrt)

/-! ## Auxiliary facts about the vector primitives over `ℝ` -/

section Aux

open StateType

theorem AlignedVector4.scale_def {α : Type} [LinearOrderedField α]
    (v : AlignedVector4 α) (k : α) :
    v * k = (⟨v.x * k, v.y * k, v.z * k, v.w * k⟩ : AlignedVector4 α) :=
  rfl

theorem AlignedVector4.add_def {α : Type} [LinearOrderedField α]
    (a b : AlignedVector4 α) :
    a + b = (⟨a.x + b.x, a.y + b.y, a.z + b.z, a.w + b.w⟩ : AlignedVector4 α) :=
  rfl

theorem AlignedVector4.sub_def {α : Type} [LinearOrderedField α]
    (a b : AlignedVector4 α) :
    a - b = (⟨a.x - b.x, a.y - b.y, a.z - b.z, a.w - b.w⟩ : AlignedVector4 α) :=
  rfl

theorem NiVector3.smul_def {α : Type} [LinearOrderedField α]
    (v : NiVector3 α) (k : α) :
    v * k = (⟨v.x * k, v.y * k, v.z * k⟩ : NiVector3 α) :=
  rfl

theorem AlignedVector4.scale_zero (v : AlignedVector4 ℝ) :
    v * (0 : ℝ) = AlignedVector4.zero := by
  simp [AlignedVector4.scale_def, AlignedVector4.zero]

theorem AlignedVector4.scale_one (v : AlignedVector4 ℝ) : v * (1 : ℝ) = v := by
  simp [AlignedVector4.scale_def]

theorem NiVector3.Length_nonneg (v : NiVector3 ℝ) : 0 ≤ v.Length Real.sqrt :=
  Real.sqrt_nonneg _

/-- The length of the first three lanes of `v * k` is `|k|` times that of `v`. -/
theorem AlignedVector4.Length_scale (v : AlignedVector4 ℝ) (k : ℝ) :
    (v * k).toNi.Length Real.sqrt = |k| * v.toNi.Length Real.sqrt := by
  simp only [AlignedVector4.scale_def, AlignedVector4.toNi, NiVector3.Length]
  rw [show v.x * k * (v.x * k) + v.y * k * (v.y * k) + v.z * k * (v.z * k)
      = (k * k) * (v.x * v.x + v.y * v.y + v.z * v.z) by ring]
  rw [Real.sqrt_mul (mul_self_nonneg k), Real.sqrt_mul_self_eq_abs]

theorem AlignedVector4.Length_zero :
    (AlignedVector4.zero : AlignedVector4 ℝ).toNi.Length Real.sqrt = 0 := by
  simp [AlignedVector4.zero, AlignedVector4.toNi, NiVector3.Length]

/-- Rescaling a vector longer than `cap ≥ 0` by `cap / |w|` gives length exactly `cap`. -/
theorem AlignedVector4.Length_rescale (w : AlignedVector4 ℝ) (cap : ℝ) (h0 : 0 ≤ cap)
    (h : w.toNi.Length Real.sqrt > cap) :
    (w * (cap / w.toNi.Length Real.sqrt)).toNi.Length Real.sqrt = cap := by
  have hpos : 0 < w.toNi.Length Real.sqrt := lt_of_le_of_lt h0 h
  rw [AlignedVector4.Length_scale, abs_of_nonneg (div_nonneg h0 hpos.le),
    div_mul_cancel₀ _ hpos.ne']

theorem NiVector3.sumsq_nonneg (v : NiVector3 ℝ) :
    0 ≤ v.x * v.x + v.y * v.y + v.z * v.z :=
  add_nonneg (add_nonneg (mul_self_nonneg _) (mul_self_nonneg _)) (mul_self_nonneg _)

/-- A three-lane vector has length `0` exactly when its three lanes are `0`. -/
theorem NiVector3.Length_eq_zero_iff (v : NiVector3 ℝ) :
    v.Length Real.sqrt = 0 ↔ v.x = 0 ∧ v.y = 0 ∧ v.z = 0 := by
  unfold NiVector3.Length
  rw [Real.sqrt_eq_zero (NiVector3.sumsq_nonneg v)]
  constructor
  · intro h
    refine ⟨?_, ?_, ?_⟩
    · nlinarith [mul_self_nonneg v.x, mul_self_nonneg v.y, mul_self_nonneg v.z]
    · nlinarith [mul_self_nonneg v.x, mul_self_nonneg v.y, mul_self_nonneg v.z]
    · nlinarith [mul_self_nonneg v.x, mul_self_nonneg v.y, mul_self_nonneg v.z]
  · rintro ⟨hx, hy, hz⟩
    rw [hx, hy, hz]
    ring

theorem NiVector3.Length_mul_self (v : NiVector3 ℝ) :
    v.Length Real.sqrt * v.Length Real.sqrt = v.x * v.x + v.y * v.y + v.z * v.z :=
  Real.mul_self_sqrt (NiVector3.sumsq_nonneg v)

/-- Normalising a vector of non-zero length gives a vector of length exactly `1`. -/
theorem NiVector3.Length_Normalize (v : NiVector3 ℝ) (h : v.Length Real.sqrt ≠ 0) :
    (v.Normalize Real.sqrt).Length Real.sqrt = 1 := by
  have hsq := NiVector3.Length_mul_self v
  have key : v.x / v.Length Real.sqrt * (v.x / v.Length Real.sqrt)
      + v.y / v.Length Real.sqrt * (v.y / v.Length Real.sqrt)
      + v.z / v.Length Real.sqrt * (v.z / v.Length Real.sqrt) = 1 := by
    field_simp
    linarith
  show Real.sqrt _ = 1
  simp only [NiVector3.Normalize]
  rw [key, Real.sqrt_one]

/-- The raw direction `forward * -i.x + (forward × up) * i.y + up * i.z` vanishes only
for the zero input, as soon as `forward × up` is not zero. -/
theorem raw_direction_eq_zero (fx fy fz ux uy uz ix iy iz : ℝ)
    (e1 : fx * -ix + (fy * uz - fz * uy) * iy + ux * iz = 0)
    (e2 : fy * -ix + (fz * ux - fx * uz) * iy + uy * iz = 0)
    (e3 : fz * -ix + (fx * uy - fy * ux) * iy + uz * iz = 0)
    (hr : ¬ (fy * uz - fz * uy = 0 ∧ fz * ux - fx * uz = 0 ∧ fx * uy - fy * ux = 0)) :
    ix = 0 ∧ iy = 0 ∧ iz = 0 := by
  have hpos : (fy * uz - fz * uy) * (fy * uz - fz * uy)
      + (fz * ux - fx * uz) * (fz * ux - fx * uz)
      + (fx * uy - fy * ux) * (fx * uy - fy * ux) ≠ 0 := by
    intro h0
    apply hr
    refine ⟨?_, ?_, ?_⟩ <;>
      nlinarith [mul_self_nonneg (fy * uz - fz * uy), mul_self_nonneg (fz * ux - fx * uz),
        mul_self_nonneg (fx * uy - fy * ux)]
  have hy : iy * ((fy * uz - fz * uy) * (fy * uz - fz * uy)
      + (fz * ux - fx * uz) * (fz * ux - fx * uz)
      + (fx * uy - fy * ux) * (fx * uy - fy * ux)) = 0 := by
    linear_combination (fy * uz - fz * uy) * e1 + (fz * ux - fx * uz) * e2
      + (fx * uy - fy * ux) * e3
  have hx : ix * ((fy * uz - fz * uy) * (fy * uz - fz * uy)
      + (fz * ux - fx * uz) * (fz * ux - fx * uz)
      + (fx * uy - fy * ux) * (fx * uy - fy * ux)) = 0 := by
    linear_combination
      (-(uy * (fx * uy - fy * ux) - uz * (fz * ux - fx * uz))) * e1
      + (-(uz * (fy * uz - fz * uy) - ux * (fx * uy - fy * ux))) * e2
      + (-(ux * (fz * ux - fx * uz) - uy * (fy * uz - fz * uy))) * e3
  have hz : iz * ((fy * uz - fz * uy) * (fy * uz - fz * uy)
      + (fz * ux - fx * uz) * (fz * ux - fx * uz)
      + (fx * uy - fy * ux) * (fx * uy - fy * ux)) = 0 := by
    linear_combination
      ((fz * ux - fx * uz) * fz - (fx * uy - fy * ux) * fy) * e1
      + ((fx * uy - fy * ux) * fx - (fy * uz - fz * uy) * fz) * e2
      + ((fy * uz - fz * uy) * fy - (fz * ux - fx * uz) * fx) * e3
  exact ⟨(mul_eq_zero.mp hx).resolve_right hpos, (mul_eq_zero.mp hy).resolve_right hpos,
    (mul_eq_zero.mp hz).resolve_right hpos⟩

theorem AlignedVector4.toNi_ofNi {α : Type} [LinearOrderedField α] (v : NiVector3 α) :
    (AlignedVector4.ofNi v).toNi = v :=
  rfl

/-- The raw move direction of `GetMoveVector` has non-zero length when the input is
not shorter than `1e-4` and `forward × up` is not zero. -/
theorem raw_direction_Length_ne_zero (move : CharacterMoveParams ℝ)
    (hin : move.input.toNi.Length Real.sqrt ≥ 1 / 10000)
    (hcross : move.forward.toNi.CrossProduct move.up.toNi ≠ ⟨0, 0, 0⟩) :
    (move.forward * (-move.input.x)
        + AlignedVector4.ofNi (move.forward.toNi.CrossProduct move.up.toNi) * move.input.y
        + move.up * move.input.z).toNi.Length Real.sqrt ≠ 0 := by
  intro h0
  rw [NiVector3.Length_eq_zero_iff] at h0
  obtain ⟨e1, e2, e3⟩ := h0
  simp only [AlignedVector4.add_def, AlignedVector4.scale_def, AlignedVector4.toNi,
    AlignedVector4.ofNi, NiVector3.CrossProduct] at e1 e2 e3
  have hr : ¬ (move.forward.y * move.up.z - move.forward.z * move.up.y = 0 ∧
      move.forward.z * move.up.x - move.forward.x * move.up.z = 0 ∧
      move.forward.x * move.up.y - move.forward.y * move.up.x = 0) := by
    rintro ⟨h1, h2, h3⟩
    apply hcross
    simp only [NiVector3.CrossProduct, AlignedVector4.toNi, h1, h2, h3]
  obtain ⟨hx, hy, hz⟩ := raw_direction_eq_zero _ _ _ _ _ _ _ _ _ e1 e2 e3 hr
  have hlen : move.input.toNi.Length Real.sqrt = 0 :=
    (NiVector3.Length_eq_zero_iff _).mpr ⟨hx, hy, hz⟩
  rw [hlen] at hin
  norm_num at hin

/-- Unit length of the result of `GetMoveVector` (both paths). -/
theorem GetMoveVector_Length_eq_one (move : CharacterMoveParams ℝ)
    (hin : move.input.toNi.Length Real.sqrt ≥ 1 / 10000)
    (hcross : move.forward.toNi.CrossProduct move.up.toNi ≠ ⟨0, 0, 0⟩) :
    (Refined.GetMoveVector Real.sqrt move).toNi.Length Real.sqrt = 1 := by
  have hraw := raw_direction_Length_ne_zero move hin hcross
  have hm := NiVector3.Length_Normalize _ hraw
  unfold Refined.GetMoveVector
  simp only []
  generalize NiVector3.Normalize Real.sqrt (move.forward * (-move.input.x)
    + AlignedVector4.ofNi (move.forward.toNi.CrossProduct move.up.toNi) * move.input.y
    + move.up * move.input.z).toNi = m at hm ⊢
  split_ifs with hflat
  · rw [AlignedVector4.toNi_ofNi]
    exact hm
  · rw [AlignedVector4.toNi_ofNi]
    apply NiVector3.Length_Normalize
    rw [not_or, not_le, not_le] at hflat
    have hnz : (0 : ℝ) < move.groundNormal.z := lt_trans (by norm_num) hflat.1
    intro h0
    rw [NiVector3.Length_eq_zero_iff] at h0
    obtain ⟨hx, hy, hz⟩ := h0
    simp only at hx hy hz
    rw [div_eq_zero_iff, neg_eq_zero] at hz
    have hdot := hz.resolve_right hnz.ne'
    unfold NiVector3.DotProduct at hdot
    rw [hx, hy] at hdot
    have hmz : m.z = 0 := by
      have h3 : m.z * move.groundNormal.toNi.z = 0 := by linarith
      exact (mul_eq_zero.mp h3).resolve_right hnz.ne'
    have hzero := (NiVector3.Length_eq_zero_iff m).mpr ⟨hx, hy, hmz⟩
    rw [hm] at hzero
    exact one_ne_zero hzero

/-- Orthonormal `forward` and `up` have a non-zero cross product. -/
theorem CrossProduct_ne_zero_of_orthonormal (f u : NiVector3 ℝ)
    (hf : f.DotProduct f = 1) (hu : u.DotProduct u = 1) (hfu : f.DotProduct u = 0) :
    f.CrossProduct u ≠ ⟨0, 0, 0⟩ := by
  intro h
  have hx := congrArg NiVector3.x h
  have hy := congrArg NiVector3.y h
  have hz := congrArg NiVector3.z h
  simp only [NiVector3.CrossProduct] at hx hy hz
  simp only [NiVector3.DotProduct] at hf hu hfu
  have hlag : (f.y * u.z - f.z * u.y) * (f.y * u.z - f.z * u.y)
      + (f.z * u.x - f.x * u.z) * (f.z * u.x - f.x * u.z)
      + (f.x * u.y - f.y * u.x) * (f.x * u.y - f.y * u.x)
      = (f.x * f.x + f.y * f.y + f.z * f.z) * (u.x * u.x + u.y * u.y + u.z * u.z)
        - (f.x * u.x + f.y * u.y + f.z * u.z) * (f.x * u.x + f.y * u.y + f.z * u.z) := by
    ring
  rw [hx, hy, hz, hf, hu, hfu] at hlag
  norm_num at hlag

theorem AlignedVector4.zero_add_ofNi_scale (m : NiVector3 ℝ) (k : ℝ) :
    (⟨0, 0, 0, 0⟩ : AlignedVector4 ℝ) + AlignedVector4.ofNi (m * k)
      = AlignedVector4.ofNi m * k := by
  simp [AlignedVector4.add_def, AlignedVector4.scale_def, AlignedVector4.ofNi,
    NiVector3.smul_def]

/-- Refined `ApplyFriction` leaves the zero velocity at zero on a ground normal with
`z = 1`, for `deltaTime ≥ 0`. -/
theorem Refined.ApplyFriction_rest_flat (move : CharacterMoveParams ℝ) (deltaTime : ℝ)
    (hnz : move.groundNormal.z = 1) (hdt : 0 ≤ deltaTime) :
    Refined.ApplyFriction Real.sqrt move ⟨0, 0, 0, 0⟩ deltaTime = ⟨0, 0, 0, 0⟩ := by
  have h0 : (⟨0, 0, 0, 0⟩ : AlignedVector4 ℝ).toNi.Length Real.sqrt = 0 :=
    AlignedVector4.Length_zero
  unfold Refined.ApplyFriction
  simp only [h0, hnz]
  rw [if_pos]
  · rfl
  · norm_num [Refined.fFriction, Refined.fStopSpeed]
    exact hdt

/-- Refined `ApplyAcceleration` from rest on a ground normal with `z = 1`, along a unit
move vector: the velocity becomes `m * min (6 * L * deltaTime) L`, without rescaling. -/
theorem Refined.ApplyAcceleration_rest_flat (move : CharacterMoveParams ℝ)
    (m : NiVector3 ℝ) (L deltaTime : ℝ) (hnz : move.groundNormal.z = 1)
    (hm : m.Length Real.sqrt = 1) (hL : 0 < L) (hdt : 0 ≤ deltaTime) :
    Refined.ApplyAcceleration Real.sqrt move ⟨0, 0, 0, 0⟩ kState_OnGround m L deltaTime
      = AlignedVector4.ofNi m * min (6 * L * deltaTime) L := by
  have h0 : (⟨0, 0, 0, 0⟩ : AlignedVector4 ℝ).toNi.Length Real.sqrt = 0 :=
    AlignedVector4.Length_zero
  have hd : (⟨0, 0, 0, 0⟩ : AlignedVector4 ℝ).toNi.DotProduct m = 0 := by
    simp [AlignedVector4.toNi, NiVector3.DotProduct]
  have hk : 0 ≤ min (6 * L * deltaTime) L := le_min (by positivity) hL.le
  have hlen : (AlignedVector4.ofNi m * min (6 * L * deltaTime) L).toNi.Length Real.sqrt
      = min (6 * L * deltaTime) L := by
    rw [AlignedVector4.Length_scale, AlignedVector4.toNi_ofNi, hm, abs_of_nonneg hk,
      mul_one]
  have hs : ¬ (kState_OnGround = kState_InAir) := by decide
  unfold Refined.ApplyAcceleration
  simp only [h0, hd, hnz, decide_eq_true_eq, Refined.fAcceleration, mul_one, sub_zero,
    max_eq_left hL.le, if_neg hs]
  rw [if_neg (not_le.mpr hL), AlignedVector4.zero_add_ofNi_scale, hlen,
    if_neg (not_lt.mpr (min_le_right _ _))]

theorem float_1e_4_pos : (0 : ℝ) < float_1e_4 := by
  norm_num [float_1e_4]

/-- The `float` constant `1e-4f` is smaller than the real number `1/10000`. -/
theorem float_1e_4_lt : (float_1e_4 : ℝ) < 1 / 10000 := by
  norm_num [float_1e_4]

theorem Length_ten :
    (⟨10, 0, 0, 0⟩ : AlignedVector4 ℝ).toNi.Length Real.sqrt = 10 := by
  simp only [AlignedVector4.toNi, NiVector3.Length]
  rw [show (10 : ℝ) * 10 + 0 * 0 + 0 * 0 = 10 * 10 by norm_num]
  exact Real.sqrt_mul_self (by norm_num)

end Aux

/-! ## Friction and acceleration -/

section Claims

open StateType

/-- C1. Refined model, `ApplyAcceleration`: for every move-parameters record, velocity,
state, move vector, move length and time step, the speed after the call is at most
`max targetSpeed |v|`, where `targetSpeed` is `moveLength * fAirSpeed` in the air and
`moveLength` otherwise.  (The bound needs neither `moveLength ≥ 0` nor
`deltaTime ≥ 0`.) -/
theorem C1_ApplyAcceleration_speed_le_cap (move : CharacterMoveParams ℝ)
    (v : AlignedVector4 ℝ) (state : StateType) (m : NiVector3 ℝ)
    (moveLength deltaTime : ℝ) :
    (Refined.ApplyAcceleration Real.sqrt move v state m moveLength deltaTime).toNi.Length
        Real.sqrt
      ≤ max (if state = kState_InAir then moveLength * Refined.fAirSpeed else moveLength)
          (v.toNi.Length Real.sqrt) := by
  unfold Refined.ApplyAcceleration
  simp only [decide_eq_true_eq]
  have hcap : ∀ t : ℝ, 0 ≤ max t (v.toNi.Length Real.sqrt) := fun t =>
    le_trans (NiVector3.Length_nonneg v.toNi) (le_max_right _ _)
  split_ifs with h1 h2 h3 h4 h5
  · exact le_max_right _ _
  · exact le_of_eq (AlignedVector4.Length_rescale _ _ (hcap _) h3)
  · exact not_lt.mp h3
  · exact le_max_right _ _
  · exact le_of_eq (AlignedVector4.Length_rescale _ _ (hcap _) h5)
  · exact not_lt.mp h5

/-- C2. `ApplyFriction`, initial and refined model: whenever the friction magnitude
`fFriction * max |V| fStopSpeed * slopeFactor * deltaTime` (slope factor `1` in the
initial model, `groundNormal.z` in the refined one) is at least `|V|`, the velocity
after the call is the zero vector in all four lanes. -/
theorem C2_ApplyFriction_stops (move : CharacterMoveParams ℝ) (V : AlignedVector4 ℝ)
    (deltaTime : ℝ) :
    (Initial.fFriction * max (V.toNi.Length Real.sqrt) Initial.fStopSpeed * 1 * deltaTime
        ≥ V.toNi.Length Real.sqrt →
      Initial.ApplyFriction Real.sqrt move V deltaTime = ⟨0, 0, 0, 0⟩) ∧
    (Refined.fFriction * max (V.toNi.Length Real.sqrt) Refined.fStopSpeed
          * move.groundNormal.z * deltaTime
        ≥ V.toNi.Length Real.sqrt →
      Refined.ApplyFriction Real.sqrt move V deltaTime = ⟨0, 0, 0, 0⟩) := by
  constructor
  · intro h
    rw [mul_one] at h
    unfold Initial.ApplyFriction
    simp only []
    rw [if_pos h]
    rfl
  · intro h
    unfold Refined.ApplyFriction
    simp only []
    rw [if_pos h]
    rfl

/-- C2, the scenario of the claim: `|V| = 10`, `deltaTime = 1`, slope factor `1` gives
friction `50 ≥ 10`, and both models return the zero vector. -/
theorem C2_ApplyFriction_stops_witness :
    ((5 : ℝ) * max 10 8 * 1 * 1 = 50) ∧
    Initial.ApplyFriction Real.sqrt (moveWithNormal ⟨0, 0, 1, 0⟩) ⟨10, 0, 0, 0⟩ 1
      = ⟨0, 0, 0, 0⟩ ∧
    Refined.ApplyFriction Real.sqrt (moveWithNormal ⟨0, 0, 1, 0⟩) ⟨10, 0, 0, 0⟩ 1
      = ⟨0, 0, 0, 0⟩ :=
  ⟨by norm_num,
   (C2_ApplyFriction_stops (moveWithNormal ⟨0, 0, 1, 0⟩) ⟨10, 0, 0, 0⟩ 1).1
     (by rw [Length_ten]; norm_num [Initial.fFriction, Initial.fStopSpeed]),
   (C2_ApplyFriction_stops (moveWithNormal ⟨0, 0, 1, 0⟩) ⟨10, 0, 0, 0⟩ 1).2
     (by rw [Length_ten]; norm_num [Refined.fFriction, Refined.fStopSpeed, moveWithNormal])⟩

/-- C3, as stated, fails: on a ground normal with `z = -1`, velocity `(10, 0, 0)` and
`deltaTime = 1` the refined `ApplyFriction` returns `(60, 0, 0)`: the speed grows from
`10` to `60`, and no scalar `k` with `0 ≤ k ≤ 1` gives the result as `k * V`. -/
theorem C3_ApplyFriction_scaling_counterexample :
    (0 : ℝ) ≤ 1 ∧
    Refined.ApplyFriction Real.sqrt (moveWithNormal ⟨0, 0, -1, 0⟩) ⟨10, 0, 0, 0⟩ 1
      = ⟨60, 0, 0, 0⟩ ∧
    ¬ ∃ k : ℝ, 0 ≤ k ∧ k ≤ 1 ∧
      Refined.ApplyFriction Real.sqrt (moveWithNormal ⟨0, 0, -1, 0⟩) ⟨10, 0, 0, 0⟩ 1
        = (⟨10, 0, 0, 0⟩ : AlignedVector4 ℝ) * k := by
  have hval :
      Refined.ApplyFriction Real.sqrt (moveWithNormal ⟨0, 0, -1, 0⟩) ⟨10, 0, 0, 0⟩ 1
        = ⟨60, 0, 0, 0⟩ := by
    unfold Refined.ApplyFriction
    simp only [Length_ten]
    norm_num [Refined.fFriction, Refined.fStopSpeed, moveWithNormal,
      AlignedVector4.scale_def]
  refine ⟨by norm_num, hval, ?_⟩
  rintro ⟨k, _, hk1, hk⟩
  rw [hval, AlignedVector4.scale_def] at hk
  have hx := congrArg AlignedVector4.x hk
  simp only at hx
  linarith

/-- C3, amended. Refined model, `ApplyFriction`: for every ground normal with
`groundNormal.z ≥ 0`, every velocity `V` and every `deltaTime ≥ 0`, the velocity after
the call is `V * k` for some `k` with `0 ≤ k ≤ 1`, and the speed after the call is at
most the speed before it. -/
theorem C3_ApplyFriction_scales_down (move : CharacterMoveParams ℝ)
    (V : AlignedVector4 ℝ) (deltaTime : ℝ) (hn : 0 ≤ move.groundNormal.z)
    (hdt : 0 ≤ deltaTime) :
    (∃ k : ℝ, 0 ≤ k ∧ k ≤ 1 ∧ Refined.ApplyFriction Real.sqrt move V deltaTime = V * k) ∧
    (Refined.ApplyFriction Real.sqrt move V deltaTime).toNi.Length Real.sqrt
      ≤ V.toNi.Length Real.sqrt := by
  have hkey : ∃ k : ℝ, 0 ≤ k ∧ k ≤ 1 ∧
      Refined.ApplyFriction Real.sqrt move V deltaTime = V * k := by
    have hs : 0 ≤ V.toNi.Length Real.sqrt := NiVector3.Length_nonneg _
    have hf : 0 ≤ Refined.fFriction * max (V.toNi.Length Real.sqrt) Refined.fStopSpeed
        * move.groundNormal.z * deltaTime := by
      have h5 : (0 : ℝ) ≤ Refined.fFriction := by norm_num [Refined.fFriction]
      have hm : 0 ≤ max (V.toNi.Length Real.sqrt) Refined.fStopSpeed :=
        le_trans hs (le_max_left _ _)
      positivity
    unfold Refined.ApplyFriction
    simp only []
    split_ifs with h
    · exact ⟨0, le_refl _, zero_le_one, (AlignedVector4.scale_zero V).symm⟩
    · have hlt := not_le.mp h
      have hpos : 0 < V.toNi.Length Real.sqrt := lt_of_le_of_lt hf hlt
      refine ⟨_, ?_, ?_, rfl⟩
      · rw [sub_nonneg, div_le_one hpos]
        exact hlt.le
      · rw [sub_le_self_iff]
        exact div_nonneg hf hpos.le
  refine ⟨hkey, ?_⟩
  obtain ⟨k, hk0, hk1, hk⟩ := hkey
  rw [hk, AlignedVector4.Length_scale, abs_of_nonneg hk0]
  exact mul_le_of_le_one_left (NiVector3.Length_nonneg _) hk1

/-- C3, amended, at the ground normal `(0, 0, 1)`, `V = (10, 0, 0)`,
`deltaTime = 1/100` (friction `1/2`, below the speed `10`). -/
theorem C3_ApplyFriction_scales_down_witness :
    (∃ k : ℝ, 0 ≤ k ∧ k ≤ 1 ∧
      Refined.ApplyFriction Real.sqrt (moveWithNormal ⟨0, 0, 1, 0⟩) ⟨10, 0, 0, 0⟩ (1 / 100)
        = (⟨10, 0, 0, 0⟩ : AlignedVector4 ℝ) * k) ∧
    (Refined.ApplyFriction Real.sqrt (moveWithNormal ⟨0, 0, 1, 0⟩)
        ⟨10, 0, 0, 0⟩ (1 / 100)).toNi.Length Real.sqrt
      ≤ (⟨10, 0, 0, 0⟩ : AlignedVector4 ℝ).toNi.Length Real.sqrt :=
  C3_ApplyFriction_scales_down (moveWithNormal ⟨0, 0, 1, 0⟩) ⟨10, 0, 0, 0⟩ (1 / 100)
    (by norm_num [moveWithNormal]) (by norm_num)

/-- C4. Refined model, `GetMoveVector`: when the input has length at least `1e-4` and
`forward × up` is not the zero vector, the returned move vector has length exactly `1`
(over the reals), for every ground normal, that is, on the unprojected path as well as
on the slope-projected path. -/
theorem C4_GetMoveVector_unit_length (move : CharacterMoveParams ℝ)
    (hin : move.input.toNi.Length Real.sqrt ≥ 1 / 10000)
    (hcross : move.forward.toNi.CrossProduct move.up.toNi ≠ ⟨0, 0, 0⟩) :
    (Refined.GetMoveVector Real.sqrt move).toNi.Length Real.sqrt = 1 :=
  GetMoveVector_Length_eq_one move hin hcross

/-- C4 on a slope: input `(0, 1, 0)`, forward `(0, 1, 0)`, up `(0, 0, 1)` and ground
normal `(0, 3/5, 4/5)`. -/
theorem C4_GetMoveVector_unit_length_witness :
    (Refined.GetMoveVector Real.sqrt slopeMove).toNi.Length Real.sqrt = 1 :=
  C4_GetMoveVector_unit_length slopeMove
    (by norm_num [slopeMove, AlignedVector4.toNi, NiVector3.Length])
    (by simp [slopeMove, AlignedVector4.toNi, NiVector3.CrossProduct])

/-- C5, amended. `UpdateVelocity`, initial and refined model: when the input vector is
shorter than the `float` constant `1e-4f` of the source (`13743895 / 2^37`), the result
is `ApplyFriction` of the velocity when the state is not `InAir` and the velocity itself
when the state is `InAir`; no acceleration is applied. -/
theorem C5_UpdateVelocity_no_input (move : CharacterMoveParams ℝ)
    (velocity : AlignedVector4 ℝ) (state : StateType) (deltaTime : ℝ)
    (hin : move.input.toNi.Length Real.sqrt < float_1e_4) :
    (state ≠ kState_InAir →
      Initial.UpdateVelocity Real.sqrt move velocity state deltaTime
          = Initial.ApplyFriction Real.sqrt move velocity deltaTime ∧
      Refined.UpdateVelocity Real.sqrt move velocity state deltaTime
          = Refined.ApplyFriction Real.sqrt move velocity deltaTime) ∧
    (state = kState_InAir →
      Initial.UpdateVelocity Real.sqrt move velocity state deltaTime = velocity ∧
      Refined.UpdateVelocity Real.sqrt move velocity state deltaTime = velocity) := by
  unfold Initial.UpdateVelocity Refined.UpdateVelocity
  simp only []
  rw [if_pos hin, if_neg (not_le.mpr hin)]
  constructor
  · intro hs
    rw [if_pos hs, if_pos hs]
    exact ⟨rfl, rfl⟩
  · intro hs
    rw [if_neg (not_not.mpr hs), if_neg (not_not.mpr hs)]
    exact ⟨rfl, rfl⟩

/-- C5, amended, at the zero input, velocity `(10, 0, 0)`, state `OnGround`,
`deltaTime = 1/100`. -/
theorem C5_UpdateVelocity_no_input_witness :
    (kState_OnGround ≠ kState_InAir →
      Initial.UpdateVelocity Real.sqrt (moveWithNormal ⟨0, 0, 1, 0⟩) ⟨10, 0, 0, 0⟩
          kState_OnGround (1 / 100)
        = Initial.ApplyFriction Real.sqrt (moveWithNormal ⟨0, 0, 1, 0⟩) ⟨10, 0, 0, 0⟩
          (1 / 100) ∧
      Refined.UpdateVelocity Real.sqrt (moveWithNormal ⟨0, 0, 1, 0⟩) ⟨10, 0, 0, 0⟩
          kState_OnGround (1 / 100)
        = Refined.ApplyFriction Real.sqrt (moveWithNormal ⟨0, 0, 1, 0⟩) ⟨10, 0, 0, 0⟩
          (1 / 100)) ∧
    (kState_OnGround = kState_InAir →
      Initial.UpdateVelocity Real.sqrt (moveWithNormal ⟨0, 0, 1, 0⟩) ⟨10, 0, 0, 0⟩
          kState_OnGround (1 / 100) = ⟨10, 0, 0, 0⟩ ∧
      Refined.UpdateVelocity Real.sqrt (moveWithNormal ⟨0, 0, 1, 0⟩) ⟨10, 0, 0, 0⟩
          kState_OnGround (1 / 100) = ⟨10, 0, 0, 0⟩) :=
  C5_UpdateVelocity_no_input (moveWithNormal ⟨0, 0, 1, 0⟩) ⟨10, 0, 0, 0⟩ kState_OnGround
    (1 / 100) (by norm_num [moveWithNormal, AlignedVector4.toNi, NiVector3.Length, float_1e_4])

/-- C6. Refined model, `UpdateVelocity` from rest on flat ground: with velocity
`(0, 0, 0)`, state `OnGround`, ground normal `(0, 0, 1)`, orthonormal `forward` and
`up`, an input of length `L ≥ 1e-4` and `deltaTime ≥ 0`, the resulting velocity is
`GetMoveVector move * min (6 * L * deltaTime) L`; its length is
`min (6 * L * deltaTime) L`, which never exceeds `L`. -/
theorem C6_UpdateVelocity_from_rest (move : CharacterMoveParams ℝ) (deltaTime : ℝ)
    (hnormal : move.groundNormal.toNi = ⟨0, 0, 1⟩)
    (hf : move.forward.toNi.DotProduct move.forward.toNi = 1)
    (hu : move.up.toNi.DotProduct move.up.toNi = 1)
    (hfu : move.forward.toNi.DotProduct move.up.toNi = 0)
    (hin : move.input.toNi.Length Real.sqrt ≥ 1 / 10000)
    (hdt : 0 ≤ deltaTime) :
    Refined.UpdateVelocity Real.sqrt move ⟨0, 0, 0, 0⟩ kState_OnGround deltaTime
      = Refined.GetMoveVector Real.sqrt move
          * min (6 * move.input.toNi.Length Real.sqrt * deltaTime)
              (move.input.toNi.Length Real.sqrt) ∧
    (Refined.UpdateVelocity Real.sqrt move ⟨0, 0, 0, 0⟩ kState_OnGround
        deltaTime).toNi.Length Real.sqrt
      = min (6 * move.input.toNi.Length Real.sqrt * deltaTime)
          (move.input.toNi.Length Real.sqrt) ∧
    min (6 * move.input.toNi.Length Real.sqrt * deltaTime)
        (move.input.toNi.Length Real.sqrt)
      ≤ move.input.toNi.Length Real.sqrt := by
  have hnz : move.groundNormal.z = 1 := congrArg NiVector3.z hnormal
  have hcross := CrossProduct_ne_zero_of_orthonormal _ _ hf hu hfu
  have hunit := GetMoveVector_Length_eq_one move hin hcross
  have hL : 0 < move.input.toNi.Length Real.sqrt := lt_of_lt_of_le (by norm_num) hin
  have hk : 0 ≤ min (6 * move.input.toNi.Length Real.sqrt * deltaTime)
      (move.input.toNi.Length Real.sqrt) := le_min (by positivity) hL.le
  have hval : Refined.UpdateVelocity Real.sqrt move ⟨0, 0, 0, 0⟩ kState_OnGround deltaTime
      = Refined.GetMoveVector Real.sqrt move
          * min (6 * move.input.toNi.Length Real.sqrt * deltaTime)
              (move.input.toNi.Length Real.sqrt) := by
    unfold Refined.UpdateVelocity
    simp only []
    rw [if_pos (le_trans float_1e_4_lt.le hin),
      if_pos (show kState_OnGround ≠ kState_InAir by decide),
      Refined.ApplyFriction_rest_flat move deltaTime hnz hdt,
      Refined.ApplyAcceleration_rest_flat move _ _ deltaTime hnz hunit hL hdt]
    congr 1
    unfold Refined.GetMoveVector
    simp only []
    split_ifs <;> rfl
  refine ⟨hval, ?_, min_le_right _ _⟩
  rw [hval, AlignedVector4.Length_scale, hunit, abs_of_nonneg hk, mul_one]

/-- C6, the scenario of the claim: input `(0, 1, 0)`, forward `(0, 1, 0)`,
up `(0, 0, 1)`, ground normal `(0, 0, 1)`, `deltaTime = 1` gives velocity `(1, 0, 0)`. -/
theorem C6_UpdateVelocity_from_rest_witness :
    Refined.UpdateVelocity Real.sqrt flatMove ⟨0, 0, 0, 0⟩ kState_OnGround 1
      = ⟨1, 0, 0, 0⟩ := by
  have h := (C6_UpdateVelocity_from_rest flatMove 1
    (by simp [flatMove, AlignedVector4.toNi])
    (by simp [flatMove, AlignedVector4.toNi, NiVector3.DotProduct])
    (by simp [flatMove, AlignedVector4.toNi, NiVector3.DotProduct])
    (by simp [flatMove, AlignedVector4.toNi, NiVector3.DotProduct])
    (by norm_num [flatMove, AlignedVector4.toNi, NiVector3.Length])
    (by norm_num)).1
  rw [h]
  norm_num [Refined.GetMoveVector, flatMove, AlignedVector4.toNi, AlignedVector4.ofNi,
    NiVector3.Length, NiVector3.Normalize, NiVector3.CrossProduct,
    AlignedVector4.scale_def, AlignedVector4.add_def]

/-- C7. `ApplyAcceleration`, initial and refined model: when the speed along the move
vector `v · m` is at least the target speed (`moveLength * fAirSpeed` in the air,
`moveLength` otherwise), the velocity after the call is `v`, lane for lane. -/
theorem C7_ApplyAcceleration_at_target (move : CharacterMoveParams ℝ)
    (v : AlignedVector4 ℝ) (state : StateType) (m : NiVector3 ℝ)
    (moveLength deltaTime : ℝ) :
    (v.toNi.DotProduct m
        ≥ (if state = kState_InAir then moveLength * Initial.fAirSpeed else moveLength) →
      Initial.ApplyAcceleration move v state m moveLength deltaTime = v) ∧
    (v.toNi.DotProduct m
        ≥ (if state = kState_InAir then moveLength * Refined.fAirSpeed else moveLength) →
      Refined.ApplyAcceleration Real.sqrt move v state m moveLength deltaTime = v) := by
  constructor
  · intro h
    unfold Initial.ApplyAcceleration
    simp only [decide_eq_true_eq]
    rw [if_neg (not_lt.mpr h)]
  · intro h
    unfold Refined.ApplyAcceleration
    simp only [decide_eq_true_eq]
    rw [if_pos h]

/-- C7 at `v = (1, 0, 0)`, `m = (1, 0, 0)`, `moveLength = 1`, state `OnGround`, where
`v · m = 1` equals the target speed. -/
theorem C7_ApplyAcceleration_at_target_witness :
    Initial.ApplyAcceleration (moveWithNormal ⟨0, 0, 1, 0⟩) ⟨1, 0, 0, 0⟩ kState_OnGround
        ⟨1, 0, 0⟩ 1 1 = (⟨1, 0, 0, 0⟩ : AlignedVector4 ℝ) ∧
    Refined.ApplyAcceleration Real.sqrt (moveWithNormal ⟨0, 0, 1, 0⟩) ⟨1, 0, 0, 0⟩
        kState_OnGround ⟨1, 0, 0⟩ 1 1 = ⟨1, 0, 0, 0⟩ :=
  ⟨(C7_ApplyAcceleration_at_target (moveWithNormal ⟨0, 0, 1, 0⟩) ⟨1, 0, 0, 0⟩
      kState_OnGround ⟨1, 0, 0⟩ 1 1).1
      (by rw [if_neg (by decide)]; norm_num [AlignedVector4.toNi, NiVector3.DotProduct]),
   (C7_ApplyAcceleration_at_target (moveWithNormal ⟨0, 0, 1, 0⟩) ⟨1, 0, 0, 0⟩
      kState_OnGround ⟨1, 0, 0⟩ 1 1).2
      (by rw [if_neg (by decide)]; norm_num [AlignedVector4.toNi, NiVector3.DotProduct])⟩

end Claims

/-! ## Jump input gate -/

section GateClaims

open StateType Refined Refined.ControlState

theorem runGate_cons {α : Type} (g : Player) (op : GateOp α) (ops : List (GateOp α)) :
    runGate g (op :: ops)
      = ((runGate (stepGate g op).1 ops).1, (stepGate g op).2 :: (runGate (stepGate g op).1 ops).2) :=
  rfl

theorem runGate_append {α : Type} (g : Player) (a b : List (GateOp α)) :
    runGate g (a ++ b)
      = ((runGate (runGate g a).1 b).1, (runGate g a).2 ++ (runGate (runGate g a).1 b).2) := by
  induction a generalizing g with
  | nil => rfl
  | cons op ops ih =>
    rw [List.cons_append, runGate_cons, runGate_cons, ih]
    rfl

/-- From the consumed gate, operations without a fresh press are all swallowed and
leave the gate consumed. -/
theorem runGate_consumed {α : Type} (ops : List (GateOp α))
    (h : ∀ op ∈ ops, op.freshPress = false) :
    runGate ⟨true⟩ ops = (⟨true⟩, ops.map GateOp.swallowed) := by
  induction ops with
  | nil => rfl
  | cons op ops ih =>
    have hop := h op (List.mem_cons_self _ _)
    have hrest := ih (fun o ho => h o (List.mem_cons_of_mem _ ho))
    cases op with
    | check orig input key state =>
      simp only [GateOp.freshPress, decide_eq_false_iff_not, not_not] at hop
      simp [runGate, stepGate, hook_CheckJumpButton, hop, hrest, GateOp.swallowed]
    | jumpUpdate host state charCtrl =>
      simp [runGate, stepGate, hook_bhkCharacterStateJumping_UpdateVelocity, hrest,
        GateOp.swallowed]

/-- C8. `hook_CheckJumpButton`, for every gate state, key and requested control state:
if the fresh-press check is true the call returns true and the gate becomes
not-consumed; otherwise, if the gate is consumed, it returns false, leaves the gate
unchanged and does not call the held check; otherwise it returns the held check's
result and leaves the gate unchanged. -/
theorem C8_hook_CheckJumpButton (orig : Nat → Int → ControlState → Int) (g : Player)
    (input : Nat) (key : Int) (state : ControlState) :
    (orig input key kControlState_Pressed ≠ 0 →
      (hook_CheckJumpButton orig g input key state).ret = 1 ∧
      (hook_CheckJumpButton orig g input key state).player.usedJumpInput = false) ∧
    (orig input key kControlState_Pressed = 0 → g.usedJumpInput = true →
      (hook_CheckJumpButton orig g input key state).ret = 0 ∧
      (hook_CheckJumpButton orig g input key state).player = g ∧
      (hook_CheckJumpButton orig g input key state).calls
        = [(input, key, kControlState_Pressed)]) ∧
    (orig input key kControlState_Pressed = 0 → g.usedJumpInput = false →
      (hook_CheckJumpButton orig g input key state).ret
        = orig input key kControlState_Held ∧
      (hook_CheckJumpButton orig g input key state).player = g) := by
  refine ⟨?_, ?_, ?_⟩
  · intro h
    simp [hook_CheckJumpButton, h]
  · intro h hg
    simp [hook_CheckJumpButton, h, hg]
  · intro h hg
    simp [hook_CheckJumpButton, h, hg]

/-- C8 on the three paths: a fresh press on a consumed gate, a held key on a consumed
gate, a held key on a not-consumed gate. -/
theorem C8_hook_CheckJumpButton_witness :
    ((hook_CheckJumpButton (buttonOracle 1 1) ⟨true⟩ 0 57 kControlState_Held).ret = 1 ∧
      (hook_CheckJumpButton (buttonOracle 1 1) ⟨true⟩ 0 57
        kControlState_Held).player.usedJumpInput = false) ∧
    ((hook_CheckJumpButton (buttonOracle 0 1) ⟨true⟩ 0 57 kControlState_Held).ret = 0 ∧
      (hook_CheckJumpButton (buttonOracle 0 1) ⟨true⟩ 0 57 kControlState_Held).player
        = ⟨true⟩ ∧
      (hook_CheckJumpButton (buttonOracle 0 1) ⟨true⟩ 0 57 kControlState_Held).calls
        = [(0, 57, kControlState_Pressed)]) ∧
    ((hook_CheckJumpButton (buttonOracle 0 1) ⟨false⟩ 0 57 kControlState_Held).ret
        = buttonOracle 0 1 0 57 kControlState_Held ∧
      (hook_CheckJumpButton (buttonOracle 0 1) ⟨false⟩ 0 57 kControlState_Held).player
        = ⟨false⟩) :=
  ⟨(C8_hook_CheckJumpButton (buttonOracle 1 1) ⟨true⟩ 0 57 kControlState_Held).1
      (by decide),
   (C8_hook_CheckJumpButton (buttonOracle 0 1) ⟨true⟩ 0 57 kControlState_Held).2.1
      (by decide) rfl,
   (C8_hook_CheckJumpButton (buttonOracle 0 1) ⟨false⟩ 0 57 kControlState_Held).2.2
      (by decide) rfl⟩

/-- C9. `hook_bhkCharacterStateJumping_UpdateVelocity`: when `ShouldUsePhysics` holds
and `wantState` is neither `OnGround` nor `Climbing` the gate is consumed afterwards;
in every other case the gate is unchanged (so a not-consumed gate becomes consumed if
and only if that condition holds); and the original update is called exactly once,
with the same arguments. -/
theorem C9_jump_update_consumes {α : Type} (host : Host) (g : Player) (state : Nat)
    (charCtrl : bhkCharacterController α) :
    ((ShouldUsePhysics host charCtrl = true ∧ charCtrl.wantState ≠ kState_OnGround ∧
        charCtrl.wantState ≠ kState_Climbing) →
      (hook_bhkCharacterStateJumping_UpdateVelocity host g state
        charCtrl).player.usedJumpInput = true) ∧
    (¬ (ShouldUsePhysics host charCtrl = true ∧ charCtrl.wantState ≠ kState_OnGround ∧
        charCtrl.wantState ≠ kState_Climbing) →
      (hook_bhkCharacterStateJumping_UpdateVelocity host g state charCtrl).player = g) ∧
    (g.usedJumpInput = false →
      ((hook_bhkCharacterStateJumping_UpdateVelocity host g state
          charCtrl).player.usedJumpInput = true ↔
        (ShouldUsePhysics host charCtrl = true ∧ charCtrl.wantState ≠ kState_OnGround ∧
          charCtrl.wantState ≠ kState_Climbing))) ∧
    (hook_bhkCharacterStateJumping_UpdateVelocity host g state charCtrl).calls
      = [(state, charCtrl)] := by
  have hw : WillJump charCtrl = true ↔
      (charCtrl.wantState ≠ kState_OnGround ∧ charCtrl.wantState ≠ kState_Climbing) := by
    unfold WillJump
    cases charCtrl.wantState <;> simp
  have hcond : (ShouldUsePhysics host charCtrl && WillJump charCtrl) = true ↔
      (ShouldUsePhysics host charCtrl = true ∧ charCtrl.wantState ≠ kState_OnGround ∧
        charCtrl.wantState ≠ kState_Climbing) := by
    rw [Bool.and_eq_true, hw]
  unfold hook_bhkCharacterStateJumping_UpdateVelocity
  simp only []
  by_cases hc : (ShouldUsePhysics host charCtrl && WillJump charCtrl) = true
  · have hc2 := hcond.mp hc
    rw [if_pos hc]
    exact ⟨fun _ => rfl, fun hn => absurd hc2 hn, fun _ => ⟨fun _ => hc2, fun _ => rfl⟩, trivial⟩
  · have hc2 : ¬ _ := fun h => hc (hcond.mpr h)
    rw [if_neg hc]
    refine ⟨fun h => absurd h hc2, fun _ => rfl, fun hg => ?_, trivial⟩
    constructor
    · intro h
      rw [hg] at h
      exact absurd h (by decide)
    · intro h
      exact absurd h hc2

/-- C9 on both sides: a player controller wanting `InAir` consumes the gate, one
wanting `OnGround` leaves it as it was. -/
theorem C9_jump_update_consumes_witness :
    (hook_bhkCharacterStateJumping_UpdateVelocity ⟨7, 0⟩ ⟨false⟩ 3
        (controllerWanting 7 kState_InAir)).player.usedJumpInput = true ∧
    (hook_bhkCharacterStateJumping_UpdateVelocity ⟨7, 0⟩ ⟨false⟩ 3
        (controllerWanting 7 kState_OnGround)).player = ⟨false⟩ :=
  ⟨(C9_jump_update_consumes ⟨7, 0⟩ ⟨false⟩ 3 (controllerWanting 7 kState_InAir)).1
      (by decide),
   (C9_jump_update_consumes ⟨7, 0⟩ ⟨false⟩ 3 (controllerWanting 7 kState_OnGround)).2.1
      (by decide)⟩

/-- C10. Swallow after jump: in every sequence of gate operations, after a jump-state
update that consumes the gate (`ShouldUsePhysics` holds, `wantState` is neither
`OnGround` nor `Climbing`), every following button check whose fresh-press check is
false returns false, whatever its held check reports, up to the first button check
whose fresh-press check is true, which returns true. -/
theorem C10_swallow_after_jump {α : Type} (g : Player) (before ops : List (GateOp α))
    (host : Host) (st : Nat) (charCtrl : bhkCharacterController α)
    (orig : Nat → Int → ControlState → Int) (input : Nat) (key : Int)
    (state : ControlState)
    (hgate : ShouldUsePhysics host charCtrl = true)
    (hground : charCtrl.wantState ≠ kState_OnGround)
    (hclimb : charCtrl.wantState ≠ kState_Climbing)
    (hstale : ∀ op ∈ ops, op.freshPress = false)
    (hfresh : orig input key kControlState_Pressed ≠ 0) :
    (runGate g (before ++ GateOp.jumpUpdate host st charCtrl
        :: (ops ++ [GateOp.check orig input key state]))).2
      = (runGate g before).2 ++ none :: (ops.map GateOp.swallowed ++ [some 1]) := by
  have hw : WillJump charCtrl = true := by
    unfold WillJump
    revert hground hclimb
    cases charCtrl.wantState <;> simp
  have hjump : ∀ p : Player,
      (hook_bhkCharacterStateJumping_UpdateVelocity host p st charCtrl).player = ⟨true⟩ := by
    intro p
    simp [hook_bhkCharacterStateJumping_UpdateVelocity, hgate, hw]
  rw [runGate_append, runGate_cons, runGate_append]
  simp only [stepGate, hjump, runGate_consumed ops hstale, runGate_cons]
  simp [runGate, hook_CheckJumpButton, hfresh]

/-- C10 on a concrete run: fresh press, jump-state update of the player controller
wanting `InAir`, two polls with the key held, a fresh press. -/
theorem C10_swallow_after_jump_witness :
    (runGate ⟨false⟩
      ([GateOp.check (buttonOracle 1 0) 0 57 kControlState_Held]
        ++ GateOp.jumpUpdate ⟨7, 0⟩ 3 (controllerWanting 7 kState_InAir)
        :: ([GateOp.check (buttonOracle 0 1) 0 57 kControlState_Held,
              GateOp.check (buttonOracle 0 1) 0 57 kControlState_Held]
            ++ [GateOp.check (buttonOracle 1 0) 0 57 kControlState_Held]))).2
      = [some 1, none, some 0, some 0, some 1] :=
  C10_swallow_after_jump ⟨false⟩
    [GateOp.check (buttonOracle 1 0) 0 57 kControlState_Held]
    [GateOp.check (buttonOracle 0 1) 0 57 kControlState_Held,
      GateOp.check (buttonOracle 0 1) 0 57 kControlState_Held]
    ⟨7, 0⟩ 3 (controllerWanting 7 kState_InAir) (buttonOracle 1 0) 0 57 kControlState_Held
    (by decide) (by decide) (by decide)
    (by
      intro op hop
      simp only [List.mem_cons, List.mem_singleton, List.not_mem_nil, or_false] at hop
      rcases hop with rfl | rfl <;> rfl)
    (by decide)

/-- From the not-consumed gate, operations without a fresh press and without a
consuming jump-state update pass the held check through and leave the gate
not-consumed. -/
theorem runGate_idle {α : Type} (ops : List (GateOp α))
    (hstale : ∀ op ∈ ops, op.freshPress = false)
    (hnojump : ∀ op ∈ ops, op.consumes = false) :
    runGate ⟨false⟩ ops = (⟨false⟩, ops.map GateOp.heldResult) := by
  induction ops with
  | nil => rfl
  | cons op ops ih =>
    have hop := hstale op (List.mem_cons_self _ _)
    have hj := hnojump op (List.mem_cons_self _ _)
    have hrest := ih (fun o ho => hstale o (List.mem_cons_of_mem _ ho))
      (fun o ho => hnojump o (List.mem_cons_of_mem _ ho))
    cases op with
    | check orig input key state =>
      simp only [GateOp.freshPress, decide_eq_false_iff_not, not_not] at hop
      simp [runGate, stepGate, hook_CheckJumpButton, hop, hrest, GateOp.heldResult]
    | jumpUpdate host state charCtrl =>
      simp only [GateOp.consumes] at hj
      simp [runGate, stepGate, hook_bhkCharacterStateJumping_UpdateVelocity, hrest,
        GateOp.heldResult, hj]

/-- C11, as stated, fails: a fresh press followed by two polls with the key still held
and no jump-state update returns true three times, not once. -/
theorem C11_single_trigger_counterexample :
    (@runGate Int g_player
        [GateOp.check (buttonOracle 1 1) 0 57 kControlState_Held,
          GateOp.check (buttonOracle 0 1) 0 57 kControlState_Held,
          GateOp.check (buttonOracle 0 1) 0 57 kControlState_Held]).2
      = [some 1, some 1, some 1] ∧
    trueCount (@runGate Int g_player
        [GateOp.check (buttonOracle 1 1) 0 57 kControlState_Held,
          GateOp.check (buttonOracle 0 1) 0 57 kControlState_Held,
          GateOp.check (buttonOracle 0 1) 0 57 kControlState_Held]).2 ≠ 1 := by
  decide

/-- C11, amended. For every sequence that starts with a button check whose fresh-press
check is true and continues with operations without a fresh press and without a
consuming jump-state update, the first check returns true and every later check
returns exactly the result of the underlying held check; the number of checks that
return true is one plus the number of later checks whose held check is true. -/
theorem C11_held_passes_until_jump {α : Type} (g : Player)
    (orig : Nat → Int → ControlState → Int) (input : Nat) (key : Int)
    (state : ControlState) (ops : List (GateOp α))
    (hfresh : orig input key kControlState_Pressed ≠ 0)
    (hstale : ∀ op ∈ ops, op.freshPress = false)
    (hnojump : ∀ op ∈ ops, op.consumes = false) :
    (runGate g (GateOp.check orig input key state :: ops)).2
      = some 1 :: ops.map GateOp.heldResult ∧
    trueCount (runGate g (GateOp.check orig input key state :: ops)).2
      = 1 + trueCount (ops.map GateOp.heldResult) := by
  have hrun : (runGate g (GateOp.check orig input key state :: ops)).2
      = some 1 :: ops.map GateOp.heldResult := by
    rw [runGate_cons]
    simp only [stepGate, hook_CheckJumpButton, if_pos hfresh]
    rw [runGate_idle ops hstale hnojump]
  refine ⟨hrun, ?_⟩
  rw [hrun]
  simp [trueCount]

/-- C11, amended, on a concrete run: fresh press, a poll with the key held, a
jump-state update wanting `OnGround`, a poll with the key released. -/
theorem C11_held_passes_until_jump_witness :
    (runGate g_player
        (GateOp.check (buttonOracle 1 1) 0 57 kControlState_Held
          :: [GateOp.check (buttonOracle 0 1) 0 57 kControlState_Held,
              GateOp.jumpUpdate ⟨7, 0⟩ 3 (controllerWanting 7 kState_OnGround),
              GateOp.check (buttonOracle 0 0) 0 57 kControlState_Held])).2
      = [some 1, some 1, none, some 0] :=
  (C11_held_passes_until_jump g_player (buttonOracle 1 1) 0 57 kControlState_Held
    [GateOp.check (buttonOracle 0 1) 0 57 kControlState_Held,
      GateOp.jumpUpdate ⟨7, 0⟩ 3 (controllerWanting 7 kState_OnGround),
      GateOp.check (buttonOracle 0 0) 0 57 kControlState_Held]
    (by decide)
    (by
      intro op hop
      simp only [List.mem_cons, List.mem_singleton, List.not_mem_nil, or_false] at hop
      rcases hop with rfl | rfl | rfl <;> rfl)
    (by
      intro op hop
      simp only [List.mem_cons, List.mem_singleton, List.not_mem_nil, or_false] at hop
      rcases hop with rfl | rfl | rfl <;> rfl)).1

/-- C16, as stated, fails: the global starts with `usedJumpInput = true` (consumed),
and on it a button check whose fresh-press check is false returns false although the
held check reports true, asking the original only for `kControlState_Pressed`. -/
theorem C16_initial_state_counterexample :
    g_player.usedJumpInput = true ∧
    buttonOracle 0 1 0 57 kControlState_Held = 1 ∧
    (hook_CheckJumpButton (buttonOracle 0 1) g_player 0 57 kControlState_Held).ret = 0 ∧
    (hook_CheckJumpButton (buttonOracle 0 1) g_player 0 57 kControlState_Held).ret
      ≠ buttonOracle 0 1 0 57 kControlState_Held ∧
    (hook_CheckJumpButton (buttonOracle 0 1) g_player 0 57 kControlState_Held).calls
      = [(0, 57, kControlState_Pressed)] := by
  decide

/-- C16, amended. The gate starts consumed (`usedJumpInput = true`); so before any fresh
press and before any jump-state update, a button check whose fresh-press check is
false returns false, does not call the held check and leaves the gate consumed (a
held jump key is swallowed until the first fresh press). -/
theorem C16_gate_starts_consumed (orig : Nat → Int → ControlState → Int) (input : Nat)
    (key : Int) (state : ControlState)
    (hstale : orig input key kControlState_Pressed = 0) :
    g_player.usedJumpInput = true ∧
    (hook_CheckJumpButton orig g_player input key state).ret = 0 ∧
    (hook_CheckJumpButton orig g_player input key state).calls
      = [(input, key, kControlState_Pressed)] ∧
    (hook_CheckJumpButton orig g_player input key state).player = g_player := by
  simp [hook_CheckJumpButton, hstale, g_player]

/-- C16, amended, with the key held and no fresh press. -/
theorem C16_gate_starts_consumed_witness :
    g_player.usedJumpInput = true ∧
    (hook_CheckJumpButton (buttonOracle 0 1) g_player 0 57 kControlState_Held).ret = 0 ∧
    (hook_CheckJumpButton (buttonOracle 0 1) g_player 0 57 kControlState_Held).calls
      = [(0, 57, kControlState_Pressed)] ∧
    (hook_CheckJumpButton (buttonOracle 0 1) g_player 0 57 kControlState_Held).player
      = g_player :=
  C16_gate_starts_consumed (buttonOracle 0 1) 0 57 kControlState_Held (by decide)

end GateClaims

/-! ## Movement hook -/

section HookClaims

open StateType Refined

theorem ShouldUsePhysics_iff {α : Type} (host : Host) (charCtrl : bhkCharacterController α) :
    ShouldUsePhysics host charCtrl = true ↔
      charCtrl.handle = host.playerController ∧ host.vatsMode = 0 := by
  simp [ShouldUsePhysics]

/-- When the gate applies, the refined hook returns the record with at most
`velocity.z` rewritten and the velocity updated in the surface-relative frame. -/
theorem Refined.hook_MoveCharacter_of_gate (host : Host)
    (orig : CharacterMoveParams ℝ → AlignedVector4 ℝ →
      CharacterMoveParams ℝ × AlignedVector4 ℝ)
    (charCtrl : bhkCharacterController ℝ) (move : CharacterMoveParams ℝ)
    (velocity : AlignedVector4 ℝ) (hgate : ShouldUsePhysics host charCtrl = true) :
    Refined.hook_MoveCharacter Real.sqrt host orig charCtrl move velocity
      = (if charCtrl.hkState = kState_OnGround then
          { move with velocity := { move.velocity with
              z := (Refined.UpdateVelocity Real.sqrt move (velocity - move.surfaceVelocity)
                charCtrl.hkState charCtrl.deltaTime + move.surfaceVelocity).z } }
        else move,
        Refined.UpdateVelocity Real.sqrt move (velocity - move.surfaceVelocity)
          charCtrl.hkState charCtrl.deltaTime + move.surfaceVelocity) := by
  unfold Refined.hook_MoveCharacter
  simp only [hgate, Bool.not_true, Bool.false_eq_true, if_false]
  split_ifs <;> rfl

/-- C12. `ShouldUsePhysics` is true exactly when the controller is the player
character's controller and the VATS camera mode is `0`; and when it is false,
`hook_MoveCharacter` leaves the record and the velocity exactly as the original
function called on the same arguments leaves them. -/
theorem C12_physics_gate (host : Host)
    (orig : CharacterMoveParams ℝ → AlignedVector4 ℝ →
      CharacterMoveParams ℝ × AlignedVector4 ℝ)
    (charCtrl : bhkCharacterController ℝ) (move : CharacterMoveParams ℝ)
    (velocity : AlignedVector4 ℝ) :
    (ShouldUsePhysics host charCtrl = true ↔
      charCtrl.handle = host.playerController ∧ host.vatsMode = 0) ∧
    (ShouldUsePhysics host charCtrl = false →
      Refined.hook_MoveCharacter Real.sqrt host orig charCtrl move velocity
        = orig move velocity) := by
  refine ⟨ShouldUsePhysics_iff host charCtrl, ?_⟩
  intro h
  unfold Refined.hook_MoveCharacter
  simp [h]

/-- C12 with the VATS camera mode `1`: the player's own controller is passed to the
original function. -/
theorem C12_physics_gate_witness :
    Refined.hook_MoveCharacter Real.sqrt (hostWithMode 1) restoreVelocity
        (playerControllerIn kState_OnGround 1) flatMove ⟨10, 0, 0, 0⟩
      = restoreVelocity flatMove ⟨10, 0, 0, 0⟩ :=
  (C12_physics_gate (hostWithMode 1) restoreVelocity (playerControllerIn kState_OnGround 1)
    flatMove ⟨10, 0, 0, 0⟩).2 (by decide)

/-- C18. Refined model, write-back: when the gate applies, `hook_MoveCharacter` changes
the record only in `velocity.z` and only in state `OnGround`, where `velocity.z`
becomes the `z` lane of the final output velocity (surface velocity re-added); all
other fields are unchanged in every state, and in every state other than `OnGround`
the whole record is unchanged. -/
theorem C18_write_back_frame (host : Host)
    (orig : CharacterMoveParams ℝ → AlignedVector4 ℝ →
      CharacterMoveParams ℝ × AlignedVector4 ℝ)
    (charCtrl : bhkCharacterController ℝ) (move : CharacterMoveParams ℝ)
    (velocity : AlignedVector4 ℝ) (hgate : ShouldUsePhysics host charCtrl = true) :
    (charCtrl.hkState = kState_OnGround →
      (Refined.hook_MoveCharacter Real.sqrt host orig charCtrl move velocity).1.velocity.z
        = (Refined.hook_MoveCharacter Real.sqrt host orig charCtrl move velocity).2.z) ∧
    (charCtrl.hkState ≠ kState_OnGround →
      (Refined.hook_MoveCharacter Real.sqrt host orig charCtrl move velocity).1 = move) ∧
    (Refined.hook_MoveCharacter Real.sqrt host orig charCtrl move velocity).2
      = Refined.UpdateVelocity Real.sqrt move (velocity - move.surfaceVelocity)
          charCtrl.hkState charCtrl.deltaTime + move.surfaceVelocity ∧
    (Refined.hook_MoveCharacter Real.sqrt host orig charCtrl move velocity).1.multiplier
      = move.multiplier ∧
    (Refined.hook_MoveCharacter Real.sqrt host orig charCtrl move velocity).1.forward
      = move.forward ∧
    (Refined.hook_MoveCharacter Real.sqrt host orig charCtrl move velocity).1.up
      = move.up ∧
    (Refined.hook_MoveCharacter Real.sqrt host orig charCtrl move velocity).1.groundNormal
      = move.groundNormal ∧
    (Refined.hook_MoveCharacter Real.sqrt host orig charCtrl move velocity).1.velocity.x
      = move.velocity.x ∧
    (Refined.hook_MoveCharacter Real.sqrt host orig charCtrl move velocity).1.velocity.y
      = move.velocity.y ∧
    (Refined.hook_MoveCharacter Real.sqrt host orig charCtrl move velocity).1.velocity.w
      = move.velocity.w ∧
    (Refined.hook_MoveCharacter Real.sqrt host orig charCtrl move velocity).1.input
      = move.input ∧
    (Refined.hook_MoveCharacter Real.sqrt host orig charCtrl move velocity).1.maxSpeed
      = move.maxSpeed ∧
    (Refined.hook_MoveCharacter Real.sqrt host orig charCtrl move velocity).1.surfaceVelocity
      = move.surfaceVelocity := by
  rw [Refined.hook_MoveCharacter_of_gate host orig charCtrl move velocity hgate]
  by_cases hs : charCtrl.hkState = kState_OnGround
  · simp [hs]
  · simp [hs]

/-- C18 from rest on flat ground in state `OnGround`, `deltaTime = 1`: the record's
`velocity.z` becomes the `z` lane of the output velocity. -/
theorem C18_write_back_frame_witness :
    (Refined.hook_MoveCharacter Real.sqrt (hostWithMode 0) restoreVelocity
        (playerControllerIn kState_OnGround 1) flatMove ⟨0, 0, 0, 0⟩).1.velocity.z
      = (Refined.hook_MoveCharacter Real.sqrt (hostWithMode 0) restoreVelocity
        (playerControllerIn kState_OnGround 1) flatMove ⟨0, 0, 0, 0⟩).2.z :=
  (C18_write_back_frame (hostWithMode 0) restoreVelocity
    (playerControllerIn kState_OnGround 1) flatMove ⟨0, 0, 0, 0⟩ (by decide)).1 rfl

end HookClaims

/-! ## Slope handling and divisions -/

section SlopeClaims

open StateType

theorem Refined.GetMoveVectorTraced_fst (move : CharacterMoveParams ℝ) :
    (Refined.GetMoveVectorTraced Real.sqrt move).1 = Refined.GetMoveVector Real.sqrt move := by
  unfold Refined.GetMoveVectorTraced Refined.GetMoveVector
  simp only []
  split_ifs <;> rfl

theorem Initial.ApplyFrictionTraced_fst_initial (move : CharacterMoveParams ℝ)
    (velocity : AlignedVector4 ℝ) (deltaTime : ℝ) :
    (Initial.ApplyFrictionTraced Real.sqrt move velocity deltaTime).1
      = Initial.ApplyFriction Real.sqrt move velocity deltaTime := by
  unfold Initial.ApplyFrictionTraced Initial.ApplyFriction
  simp only []
  split_ifs <;> rfl

theorem Refined.ApplyFrictionTraced_fst (move : CharacterMoveParams ℝ)
    (velocity : AlignedVector4 ℝ) (deltaTime : ℝ) :
    (Refined.ApplyFrictionTraced Real.sqrt move velocity deltaTime).1
      = Refined.ApplyFriction Real.sqrt move velocity deltaTime := by
  unfold Refined.ApplyFrictionTraced Refined.ApplyFriction
  simp only []
  split_ifs <;> rfl

/-- Initial `ApplyFriction` on the zero velocity with `deltaTime ≥ 0`: the branch
`friction ≥ speed` is taken, without a division. -/
theorem Initial.ApplyFrictionTraced_rest_initial (move : CharacterMoveParams ℝ) (deltaTime : ℝ)
    (hdt : 0 ≤ deltaTime) :
    Initial.ApplyFrictionTraced Real.sqrt move ⟨0, 0, 0, 0⟩ deltaTime = (⟨0, 0, 0, 0⟩, []) := by
  have h0 : (⟨0, 0, 0, 0⟩ : AlignedVector4 ℝ).toNi.Length Real.sqrt = 0 :=
    AlignedVector4.Length_zero
  unfold Initial.ApplyFrictionTraced
  simp only [h0]
  rw [if_pos]
  · rfl
  · norm_num [Initial.fFriction, Initial.fStopSpeed]
    exact hdt

/-- Refined `ApplyFriction` on the zero velocity with `deltaTime ≥ 0` and a ground
normal with `z ≥ 0`: the branch `friction ≥ speed` is taken, without a division. -/
theorem Refined.ApplyFrictionTraced_rest (move : CharacterMoveParams ℝ) (deltaTime : ℝ)
    (hn : 0 ≤ move.groundNormal.z) (hdt : 0 ≤ deltaTime) :
    Refined.ApplyFrictionTraced Real.sqrt move ⟨0, 0, 0, 0⟩ deltaTime = (⟨0, 0, 0, 0⟩, []) := by
  have h0 : (⟨0, 0, 0, 0⟩ : AlignedVector4 ℝ).toNi.Length Real.sqrt = 0 :=
    AlignedVector4.Length_zero
  unfold Refined.ApplyFrictionTraced
  simp only [h0]
  rw [if_pos]
  · rfl
  · norm_num [Refined.fFriction, Refined.fStopSpeed]
    positivity

theorem sqrt_twenty_five : Real.sqrt 25 = 5 := by
  rw [show (25 : ℝ) = 5 * 5 by norm_num]
  exact Real.sqrt_mul_self (by norm_num)

/-- On the slope-projected path of `GetMoveVector` the dot product of the result with
the ground normal is `-(m.z * normal.z) / |p|`, where `m` is the unprojected unit
direction and `p = (m.x, m.y, -(m · normal) / normal.z)`: the `z` lane of `m` is counted
in `dot`, so the result lies in the slope plane only when `m.z = 0`. -/
theorem GetMoveVector_slope_dot_normal (move : CharacterMoveParams ℝ)
    (hlo : 1 / 10000 < move.groundNormal.z) (hhi : move.groundNormal.z < 1 - 1 / 10000) :
    (Refined.GetMoveVector Real.sqrt move).toNi.DotProduct move.groundNormal.toNi
      = -((NiVector3.Normalize Real.sqrt (move.forward * (-move.input.x)
            + AlignedVector4.ofNi (move.forward.toNi.CrossProduct move.up.toNi)
                * move.input.y
            + move.up * move.input.z).toNi).z * move.groundNormal.z)
        / NiVector3.Length Real.sqrt
            ⟨(NiVector3.Normalize Real.sqrt (move.forward * (-move.input.x)
                + AlignedVector4.ofNi (move.forward.toNi.CrossProduct move.up.toNi)
                    * move.input.y
                + move.up * move.input.z).toNi).x,
             (NiVector3.Normalize Real.sqrt (move.forward * (-move.input.x)
                + AlignedVector4.ofNi (move.forward.toNi.CrossProduct move.up.toNi)
                    * move.input.y
                + move.up * move.input.z).toNi).y,
             -((NiVector3.Normalize Real.sqrt (move.forward * (-move.input.x)
                + AlignedVector4.ofNi (move.forward.toNi.CrossProduct move.up.toNi)
                    * move.input.y
                + move.up * move.input.z).toNi).DotProduct move.groundNormal.toNi)
               / move.groundNormal.z⟩ := by
  have hnz : move.groundNormal.z ≠ 0 := (lt_trans (by norm_num) hlo).ne'
  unfold Refined.GetMoveVector
  simp only []
  rw [if_neg (by rw [not_or, not_le, not_le]; exact ⟨hlo, hhi⟩), AlignedVector4.toNi_ofNi]
  generalize NiVector3.Normalize Real.sqrt (move.forward * (-move.input.x)
    + AlignedVector4.ofNi (move.forward.toNi.CrossProduct move.up.toNi) * move.input.y
    + move.up * move.input.z).toNi = m
  have hq : (-(m.DotProduct move.groundNormal.toNi) / move.groundNormal.z)
      * move.groundNormal.z
      = -(m.x * move.groundNormal.x + m.y * move.groundNormal.y
          + m.z * move.groundNormal.z) := by
    rw [div_mul_cancel₀ _ hnz]
    rfl
  generalize -(m.DotProduct move.groundNormal.toNi) / move.groundNormal.z = q at hq ⊢
  simp only [NiVector3.Normalize]
  generalize NiVector3.Length Real.sqrt ⟨m.x, m.y, q⟩ = len
  simp only [NiVector3.DotProduct, AlignedVector4.toNi]
  by_cases hlen : len = 0
  · rw [hlen]
    simp
  · field_simp
    linear_combination hq

/-- C13: the code at an input with a vertical part.  Input `(0, 3, 4)`, forward
`(0, 1, 0)`, up `(0, 0, 1)`, ground normal `(0, 3/5, 4/5)` meet the conditions of the
claim, the unprojected direction is `(3/5, 0, 4/5)`, and `GetMoveVector` returns
`(3/5, 0, -4/5)`, whose dot product with the ground normal is `-16/25`, not `0`
(the `z` lane that lies in the slope plane is `0`). -/
theorem C13_GetMoveVector_off_slope_plane :
    ((1 : ℝ) / 10000 < (climbingInputMove : CharacterMoveParams ℝ).groundNormal.z ∧
      (climbingInputMove : CharacterMoveParams ℝ).groundNormal.z < 1 - 1 / 10000) ∧
    (climbingInputMove : CharacterMoveParams ℝ).input.toNi.Length Real.sqrt ≥ 1 / 10000 ∧
    (climbingInputMove : CharacterMoveParams ℝ).forward.toNi.CrossProduct
        (climbingInputMove : CharacterMoveParams ℝ).up.toNi ≠ ⟨0, 0, 0⟩ ∧
    Refined.GetMoveVector Real.sqrt climbingInputMove = ⟨3 / 5, 0, -4 / 5, 0⟩ ∧
    (Refined.GetMoveVector Real.sqrt climbingInputMove).toNi.DotProduct
        (climbingInputMove : CharacterMoveParams ℝ).groundNormal.toNi = -16 / 25 ∧
    (Refined.GetMoveVector Real.sqrt climbingInputMove).toNi.DotProduct
        (climbingInputMove : CharacterMoveParams ℝ).groundNormal.toNi ≠ 0 := by
  have hlen : (climbingInputMove : CharacterMoveParams ℝ).input.toNi.Length Real.sqrt = 5 := by
    simp only [climbingInputMove, AlignedVector4.toNi, NiVector3.Length]
    rw [show (0 : ℝ) * 0 + 3 * 3 + 4 * 4 = 25 by norm_num]
    exact sqrt_twenty_five
  have hval : Refined.GetMoveVector Real.sqrt climbingInputMove
      = (⟨3 / 5, 0, -4 / 5, 0⟩ : AlignedVector4 ℝ) := by
    unfold Refined.GetMoveVector
    norm_num [climbingInputMove, AlignedVector4.toNi, AlignedVector4.ofNi,
      NiVector3.Length, NiVector3.Normalize, NiVector3.CrossProduct, NiVector3.DotProduct,
      AlignedVector4.scale_def, AlignedVector4.add_def, sqrt_twenty_five]
  refine ⟨by norm_num [climbingInputMove], by rw [hlen]; norm_num,
    by simp [climbingInputMove, AlignedVector4.toNi, NiVector3.CrossProduct], hval, ?_, ?_⟩
  · rw [hval]
    norm_num [climbingInputMove, AlignedVector4.toNi, NiVector3.DotProduct]
  · rw [hval]
    norm_num [climbingInputMove, AlignedVector4.toNi, NiVector3.DotProduct]

/-- C14. Refined model, `GetMoveVector` at the slope boundary: when
`groundNormal.z ≤ 1e-4` or `groundNormal.z ≥ 1 - 1e-4` the result is the normalised raw
direction `forward * (-input.x) + (forward × up) * input.y + up * input.z`, without
projection; and every division by `groundNormal.z` that the function evaluates has
`groundNormal.z > 1e-4`, so its divisor is never zero. -/
theorem C14_GetMoveVector_boundary (move : CharacterMoveParams ℝ) :
    ((move.groundNormal.z ≤ 1 / 10000 ∨ move.groundNormal.z ≥ 1 - 1 / 10000) →
      Refined.GetMoveVector Real.sqrt move
        = AlignedVector4.ofNi (NiVector3.Normalize Real.sqrt
            (move.forward * (-move.input.x)
              + AlignedVector4.ofNi (move.forward.toNi.CrossProduct move.up.toNi)
                  * move.input.y
              + move.up * move.input.z).toNi)) ∧
    (Refined.GetMoveVectorTraced Real.sqrt move).1 = Refined.GetMoveVector Real.sqrt move ∧
    (∀ d ∈ (Refined.GetMoveVectorTraced Real.sqrt move).2,
      d = move.groundNormal.z ∧ d > 1 / 10000 ∧ d ≠ 0) := by
  refine ⟨?_, Refined.GetMoveVectorTraced_fst move, ?_⟩
  · intro h
    unfold Refined.GetMoveVector
    simp only []
    rw [if_pos h]
  · intro d hd
    unfold Refined.GetMoveVectorTraced at hd
    simp only [] at hd
    split_ifs at hd with h
    · simp at hd
    · rw [not_or, not_le, not_le] at h
      simp only [List.mem_singleton] at hd
      rw [hd]
      exact ⟨rfl, h.1, (lt_trans (by norm_num) h.1).ne'⟩

/-- C14 on both sides of the test: on flat ground (`z = 1`) the raw direction `(1, 0, 0)`
is returned as it is and no division is made; on the slope `(0, 3/5, 4/5)` the only
divisor is `4/5`. -/
theorem C14_GetMoveVector_boundary_witness :
    Refined.GetMoveVector Real.sqrt flatMove
      = AlignedVector4.ofNi (NiVector3.Normalize Real.sqrt
          ((flatMove : CharacterMoveParams ℝ).forward
              * (-(flatMove : CharacterMoveParams ℝ).input.x)
            + AlignedVector4.ofNi ((flatMove : CharacterMoveParams ℝ).forward.toNi.CrossProduct
                (flatMove : CharacterMoveParams ℝ).up.toNi)
                * (flatMove : CharacterMoveParams ℝ).input.y
            + (flatMove : CharacterMoveParams ℝ).up
                * (flatMove : CharacterMoveParams ℝ).input.z).toNi) ∧
    (∀ d ∈ (Refined.GetMoveVectorTraced Real.sqrt slopeMove).2,
      d = (slopeMove : CharacterMoveParams ℝ).groundNormal.z ∧ d > 1 / 10000 ∧ d ≠ 0) :=
  ⟨(C14_GetMoveVector_boundary flatMove).1 (Or.inr (by norm_num [flatMove])),
   (C14_GetMoveVector_boundary slopeMove).2.2⟩

/-- C15, as stated, fails for the refined model: on a ground normal with `z = -1`, the
zero velocity and `deltaTime = 1` the friction is `-40`, the branch `friction ≥ speed`
is not taken, and the division `friction / speed` is evaluated with `speed = 0`. -/
theorem C15_zero_speed_counterexample :
    (0 : ℝ) ≤ 1 ∧
    (⟨0, 0, 0, 0⟩ : AlignedVector4 ℝ).toNi.Length Real.sqrt = 0 ∧
    Refined.fFriction
        * max ((⟨0, 0, 0, 0⟩ : AlignedVector4 ℝ).toNi.Length Real.sqrt) Refined.fStopSpeed
        * (moveWithNormal (⟨0, 0, -1, 0⟩ : AlignedVector4 ℝ)).groundNormal.z * 1 = -40 ∧
    ¬ (Refined.fFriction
        * max ((⟨0, 0, 0, 0⟩ : AlignedVector4 ℝ).toNi.Length Real.sqrt) Refined.fStopSpeed
        * (moveWithNormal (⟨0, 0, -1, 0⟩ : AlignedVector4 ℝ)).groundNormal.z * 1
      ≥ (⟨0, 0, 0, 0⟩ : AlignedVector4 ℝ).toNi.Length Real.sqrt) ∧
    (Refined.ApplyFrictionTraced Real.sqrt (moveWithNormal ⟨0, 0, -1, 0⟩) ⟨0, 0, 0, 0⟩ 1).2
      = [0] := by
  have h0 : (⟨0, 0, 0, 0⟩ : AlignedVector4 ℝ).toNi.Length Real.sqrt = 0 :=
    AlignedVector4.Length_zero
  refine ⟨by norm_num, h0, ?_, ?_, ?_⟩
  · rw [h0]
    norm_num [Refined.fFriction, Refined.fStopSpeed, moveWithNormal]
  · rw [h0]
    norm_num [Refined.fFriction, Refined.fStopSpeed, moveWithNormal]
  · unfold Refined.ApplyFrictionTraced
    simp only [h0]
    norm_num [Refined.fFriction, Refined.fStopSpeed, moveWithNormal]

/-- C15, amended. `ApplyFriction` on the zero velocity with `deltaTime ≥ 0`: in the
initial model for every move-parameters record, and in the refined model for every
record whose ground normal has `groundNormal.z ≥ 0`, the call takes the branch
`friction ≥ speed`, returns the zero vector and evaluates no division
`friction / speed`. -/
theorem C15_zero_speed_no_division (move : CharacterMoveParams ℝ) (deltaTime : ℝ)
    (hdt : 0 ≤ deltaTime) :
    (Initial.fFriction
          * max ((⟨0, 0, 0, 0⟩ : AlignedVector4 ℝ).toNi.Length Real.sqrt) Initial.fStopSpeed
          * deltaTime
        ≥ (⟨0, 0, 0, 0⟩ : AlignedVector4 ℝ).toNi.Length Real.sqrt ∧
      Initial.ApplyFriction Real.sqrt move ⟨0, 0, 0, 0⟩ deltaTime = ⟨0, 0, 0, 0⟩ ∧
      (Initial.ApplyFrictionTraced Real.sqrt move ⟨0, 0, 0, 0⟩ deltaTime).2 = []) ∧
    (0 ≤ move.groundNormal.z →
      Refined.fFriction
          * max ((⟨0, 0, 0, 0⟩ : AlignedVector4 ℝ).toNi.Length Real.sqrt) Refined.fStopSpeed
          * move.groundNormal.z * deltaTime
        ≥ (⟨0, 0, 0, 0⟩ : AlignedVector4 ℝ).toNi.Length Real.sqrt ∧
      Refined.ApplyFriction Real.sqrt move ⟨0, 0, 0, 0⟩ deltaTime = ⟨0, 0, 0, 0⟩ ∧
      (Refined.ApplyFrictionTraced Real.sqrt move ⟨0, 0, 0, 0⟩ deltaTime).2 = []) := by
  have h0 : (⟨0, 0, 0, 0⟩ : AlignedVector4 ℝ).toNi.Length Real.sqrt = 0 :=
    AlignedVector4.Length_zero
  constructor
  · refine ⟨?_, ?_, ?_⟩
    · rw [h0]
      norm_num [Initial.fFriction, Initial.fStopSpeed]
      exact hdt
    · rw [← Initial.ApplyFrictionTraced_fst_initial, Initial.ApplyFrictionTraced_rest_initial move deltaTime hdt]
    · rw [Initial.ApplyFrictionTraced_rest_initial move deltaTime hdt]
  · intro hn
    refine ⟨?_, ?_, ?_⟩
    · rw [h0]
      norm_num [Refined.fFriction, Refined.fStopSpeed]
      positivity
    · rw [← Refined.ApplyFrictionTraced_fst,
        Refined.ApplyFrictionTraced_rest move deltaTime hn hdt]
    · rw [Refined.ApplyFrictionTraced_rest move deltaTime hn hdt]

/-- C15, amended, on the slope `(0, 3/5, 4/5)` with `deltaTime = 1`. -/
theorem C15_zero_speed_no_division_witness :
    Initial.ApplyFriction Real.sqrt slopeMove ⟨0, 0, 0, 0⟩ 1 = ⟨0, 0, 0, 0⟩ ∧
    (Initial.ApplyFrictionTraced Real.sqrt slopeMove ⟨0, 0, 0, 0⟩ 1).2 = [] ∧
    Refined.ApplyFriction Real.sqrt slopeMove ⟨0, 0, 0, 0⟩ 1 = ⟨0, 0, 0, 0⟩ ∧
    (Refined.ApplyFrictionTraced Real.sqrt slopeMove ⟨0, 0, 0, 0⟩ 1).2 = [] :=
  ⟨(C15_zero_speed_no_division slopeMove 1 (by norm_num)).1.2.1,
   (C15_zero_speed_no_division slopeMove 1 (by norm_num)).1.2.2,
   ((C15_zero_speed_no_division slopeMove 1 (by norm_num)).2
      (by norm_num [slopeMove])).2.1,
   ((C15_zero_speed_no_division slopeMove 1 (by norm_num)).2
      (by norm_num [slopeMove])).2.2⟩

end SlopeClaims

/-! ## Whole tick -/

section TickClaims

open StateType

/-- Refined friction on a ground normal with `z ≥ 0` and `deltaTime ≥ 0` scales the
velocity by a factor in `[0, 1]`. -/
theorem Refined.ApplyFriction_eq_scale (move : CharacterMoveParams ℝ)
    (V : AlignedVector4 ℝ) (deltaTime : ℝ) (hn : 0 ≤ move.groundNormal.z)
    (hdt : 0 ≤ deltaTime) :
    ∃ k : ℝ, 0 ≤ k ∧ k ≤ 1 ∧ Refined.ApplyFriction Real.sqrt move V deltaTime = V * k := by
  have hs : 0 ≤ V.toNi.Length Real.sqrt := NiVector3.Length_nonneg _
  have hf : 0 ≤ Refined.fFriction * max (V.toNi.Length Real.sqrt) Refined.fStopSpeed
      * move.groundNormal.z * deltaTime := by
    have h5 : (0 : ℝ) ≤ Refined.fFriction := by norm_num [Refined.fFriction]
    have hm : 0 ≤ max (V.toNi.Length Real.sqrt) Refined.fStopSpeed :=
      le_trans hs (le_max_left _ _)
    positivity
  unfold Refined.ApplyFriction
  simp only []
  split_ifs with h
  · exact ⟨0, le_refl _, zero_le_one, (AlignedVector4.scale_zero V).symm⟩
  · have hlt := not_le.mp h
    have hpos : 0 < V.toNi.Length Real.sqrt := lt_of_le_of_lt hf hlt
    refine ⟨_, ?_, ?_, rfl⟩
    · rw [sub_nonneg, div_le_one hpos]
      exact hlt.le
    · rw [sub_le_self_iff]
      exact div_nonneg hf hpos.le

theorem Refined.ApplyFriction_Length_le (move : CharacterMoveParams ℝ)
    (V : AlignedVector4 ℝ) (deltaTime : ℝ) (hn : 0 ≤ move.groundNormal.z)
    (hdt : 0 ≤ deltaTime) :
    (Refined.ApplyFriction Real.sqrt move V deltaTime).toNi.Length Real.sqrt
      ≤ V.toNi.Length Real.sqrt := by
  obtain ⟨k, hk0, hk1, hk⟩ := Refined.ApplyFriction_eq_scale move V deltaTime hn hdt
  rw [hk, AlignedVector4.Length_scale, abs_of_nonneg hk0]
  exact mul_le_of_le_one_left (NiVector3.Length_nonneg _) hk1

/-- Refined acceleration never leaves a speed above `max targetSpeed |v|`. -/
theorem Refined.ApplyAcceleration_Length_le (move : CharacterMoveParams ℝ)
    (v : AlignedVector4 ℝ) (state : StateType) (m : NiVector3 ℝ)
    (moveLength deltaTime : ℝ) :
    (Refined.ApplyAcceleration Real.sqrt move v state m moveLength deltaTime).toNi.Length
        Real.sqrt
      ≤ max (if state = kState_InAir then moveLength * Refined.fAirSpeed else moveLength)
          (v.toNi.Length Real.sqrt) := by
  unfold Refined.ApplyAcceleration
  simp only [decide_eq_true_eq]
  have hcap : ∀ t : ℝ, 0 ≤ max t (v.toNi.Length Real.sqrt) := fun t =>
    le_trans (NiVector3.Length_nonneg v.toNi) (le_max_right _ _)
  split_ifs with h1 h2 h3 h4 h5
  · exact le_max_right _ _
  · exact le_of_eq (AlignedVector4.Length_rescale _ _ (hcap _) h3)
  · exact not_lt.mp h3
  · exact le_max_right _ _
  · exact le_of_eq (AlignedVector4.Length_rescale _ _ (hcap _) h5)
  · exact not_lt.mp h5

/-- C19. Refined model, whole tick: for every velocity, input, forward, up and state,
every `deltaTime ≥ 0` and every ground normal with `groundNormal.z ≥ 0`, the speed after
`UpdateVelocity` is at most `max |v| |input|`. -/
theorem C19_UpdateVelocity_speed_bound (move : CharacterMoveParams ℝ)
    (v : AlignedVector4 ℝ) (state : StateType) (deltaTime : ℝ)
    (hn : 0 ≤ move.groundNormal.z) (hdt : 0 ≤ deltaTime) :
    (Refined.UpdateVelocity Real.sqrt move v state deltaTime).toNi.Length Real.sqrt
      ≤ max (v.toNi.Length Real.sqrt) (move.input.toNi.Length Real.sqrt) := by
  have hfr : (if state ≠ kState_InAir then Refined.ApplyFriction Real.sqrt move v deltaTime
      else v).toNi.Length Real.sqrt ≤ v.toNi.Length Real.sqrt := by
    split_ifs
    · exact Refined.ApplyFriction_Length_le move v deltaTime hn hdt
    · exact le_refl _
  have htarget : (if state = kState_InAir
      then move.input.toNi.Length Real.sqrt * Refined.fAirSpeed
      else move.input.toNi.Length Real.sqrt) = move.input.toNi.Length Real.sqrt := by
    split_ifs <;> simp [Refined.fAirSpeed]
  unfold Refined.UpdateVelocity
  simp only []
  by_cases hin : move.input.toNi.Length Real.sqrt ≥ float_1e_4
  · rw [if_pos hin]
    refine le_trans (Refined.ApplyAcceleration_Length_le _ _ _ _ _ _) ?_
    rw [htarget]
    exact max_le (le_max_right _ _) (le_trans hfr (le_max_left _ _))
  · rw [if_neg hin]
    exact le_trans hfr (le_max_left _ _)

/-- C19 on the slope `(0, 3/5, 4/5)` with input `(0, 1, 0)`, velocity `(10, 0, 0)`, state
`OnGround` and `deltaTime = 1/100`. -/
theorem C19_UpdateVelocity_speed_bound_witness :
    (Refined.UpdateVelocity Real.sqrt slopeMove ⟨10, 0, 0, 0⟩ kState_OnGround
        (1 / 100)).toNi.Length Real.sqrt
      ≤ max ((⟨10, 0, 0, 0⟩ : AlignedVector4 ℝ).toNi.Length Real.sqrt)
          ((slopeMove : CharacterMoveParams ℝ).input.toNi.Length Real.sqrt) :=
  C19_UpdateVelocity_speed_bound slopeMove ⟨10, 0, 0, 0⟩ kState_OnGround (1 / 100)
    (by norm_num [slopeMove]) (by norm_num)

end TickClaims

/-! ## Surface-relative frame -/

section FrameClaims

open StateType Refined

theorem vec_add_sub_add (v s o : AlignedVector4 ℝ) : (v + o) - (s + o) = v - s := by
  simp [AlignedVector4.add_def, AlignedVector4.sub_def]

theorem vec_add_assoc (a s o : AlignedVector4 ℝ) : a + (s + o) = a + s + o := by
  simp [AlignedVector4.add_def, add_assoc]

theorem vec_sub_self (v : AlignedVector4 ℝ) : v - v = ⟨0, 0, 0, 0⟩ := by
  simp [AlignedVector4.sub_def]

theorem vec_zero_add (s : AlignedVector4 ℝ) : (⟨0, 0, 0, 0⟩ : AlignedVector4 ℝ) + s = s := by
  simp [AlignedVector4.add_def]

/-- The initial `UpdateVelocity` does not read the surface velocity of the record. -/
theorem Initial.UpdateVelocity_surfaceVelocity_initial (move : CharacterMoveParams ℝ)
    (s : AlignedVector4 ℝ) (v : AlignedVector4 ℝ) (state : StateType) (deltaTime : ℝ) :
    Initial.UpdateVelocity Real.sqrt { move with surfaceVelocity := s } v state deltaTime
      = Initial.UpdateVelocity Real.sqrt move v state deltaTime :=
  rfl

/-- The refined `UpdateVelocity` does not read the surface velocity of the record. -/
theorem Refined.UpdateVelocity_surfaceVelocity (move : CharacterMoveParams ℝ)
    (s : AlignedVector4 ℝ) (v : AlignedVector4 ℝ) (state : StateType) (deltaTime : ℝ) :
    Refined.UpdateVelocity Real.sqrt { move with surfaceVelocity := s } v state deltaTime
      = Refined.UpdateVelocity Real.sqrt move v state deltaTime :=
  rfl

/-- When the controller is the player's, the initial hook leaves the velocity updated
in the surface-relative frame. -/
theorem Initial.hook_MoveCharacter_of_player (host : Host)
    (orig : CharacterMoveParams ℝ → AlignedVector4 ℝ →
      CharacterMoveParams ℝ × AlignedVector4 ℝ)
    (charCtrl : bhkCharacterController ℝ) (move : CharacterMoveParams ℝ)
    (velocity : AlignedVector4 ℝ) (hplayer : charCtrl.handle = host.playerController) :
    Initial.hook_MoveCharacter Real.sqrt host orig charCtrl move velocity
      = (move, Initial.UpdateVelocity Real.sqrt move (velocity - move.surfaceVelocity)
          charCtrl.hkState charCtrl.deltaTime + move.surfaceVelocity) := by
  unfold Initial.hook_MoveCharacter
  simp [hplayer]

/-- With no input the initial `UpdateVelocity` keeps the zero velocity, for
`deltaTime ≥ 0`. -/
theorem Initial.UpdateVelocity_rest_initial (move : CharacterMoveParams ℝ) (state : StateType)
    (deltaTime : ℝ) (hin : move.input.toNi.Length Real.sqrt < float_1e_4)
    (hdt : 0 ≤ deltaTime) :
    Initial.UpdateVelocity Real.sqrt move ⟨0, 0, 0, 0⟩ state deltaTime = ⟨0, 0, 0, 0⟩ := by
  have hfr : Initial.ApplyFriction Real.sqrt move ⟨0, 0, 0, 0⟩ deltaTime = ⟨0, 0, 0, 0⟩ := by
    rw [← Initial.ApplyFrictionTraced_fst_initial, Initial.ApplyFrictionTraced_rest_initial move deltaTime hdt]
  unfold Initial.UpdateVelocity
  simp only []
  rw [if_pos hin, hfr]
  split_ifs <;> rfl

/-- With no input the refined `UpdateVelocity` keeps the zero velocity, for
`deltaTime ≥ 0` and a ground normal with `z ≥ 0`. -/
theorem Refined.UpdateVelocity_rest (move : CharacterMoveParams ℝ) (state : StateType)
    (deltaTime : ℝ) (hin : move.input.toNi.Length Real.sqrt < float_1e_4)
    (hn : 0 ≤ move.groundNormal.z) (hdt : 0 ≤ deltaTime) :
    Refined.UpdateVelocity Real.sqrt move ⟨0, 0, 0, 0⟩ state deltaTime = ⟨0, 0, 0, 0⟩ := by
  have hfr : Refined.ApplyFriction Real.sqrt move ⟨0, 0, 0, 0⟩ deltaTime = ⟨0, 0, 0, 0⟩ := by
    rw [← Refined.ApplyFrictionTraced_fst,
      Refined.ApplyFrictionTraced_rest move deltaTime hn hdt]
  unfold Refined.UpdateVelocity
  simp only []
  rw [if_neg (not_le.mpr hin), hfr]
  split_ifs <;> rfl

/-- On a ground normal with `z = -1` a tick of the refined hook divides by zero: the
player stands still on a surface moving with `s = (1, 2, 3)` (`v = s`), there is no
input, the state is `OnGround` and `deltaTime = 1`.  In the surface-relative frame the
velocity is zero, the friction is negative, and the tick evaluates `friction / speed`
with `speed = 0`. -/
theorem Refined.hook_MoveCharacter_divides_by_zero :
    ShouldUsePhysics (hostWithMode 0) (playerControllerIn kState_OnGround (1 : ℝ)) = true ∧
    (platformMove (⟨0, 0, -1, 0⟩ : AlignedVector4 ℝ) ⟨1, 2, 3, 0⟩).input.toNi.Length Real.sqrt
      < 1 / 10000 ∧
    (0 : ℝ) ≤ (playerControllerIn kState_OnGround (1 : ℝ)).deltaTime ∧
    (⟨1, 2, 3, 0⟩ : AlignedVector4 ℝ)
      = (platformMove (⟨0, 0, -1, 0⟩ : AlignedVector4 ℝ) ⟨1, 2, 3, 0⟩).surfaceVelocity ∧
    Refined.hook_MoveCharacter_frictionDivisors Real.sqrt (hostWithMode 0)
        (playerControllerIn kState_OnGround 1) (platformMove ⟨0, 0, -1, 0⟩ ⟨1, 2, 3, 0⟩)
        ⟨1, 2, 3, 0⟩
      = [0] := by
  refine ⟨by decide, by norm_num [platformMove, AlignedVector4.toNi, NiVector3.Length],
    by norm_num [playerControllerIn], rfl, ?_⟩
  have hgate : ShouldUsePhysics (hostWithMode 0)
      (playerControllerIn kState_OnGround (1 : ℝ)) = true := by decide
  have hsub : (⟨1, 2, 3, 0⟩ : AlignedVector4 ℝ)
      - (platformMove (⟨0, 0, -1, 0⟩ : AlignedVector4 ℝ) ⟨1, 2, 3, 0⟩).surfaceVelocity
      = ⟨0, 0, 0, 0⟩ := vec_sub_self _
  have h0 : (⟨0, 0, 0, 0⟩ : AlignedVector4 ℝ).toNi.Length Real.sqrt = 0 :=
    AlignedVector4.Length_zero
  unfold Refined.hook_MoveCharacter_frictionDivisors
  simp only [hgate, Bool.not_true, Bool.false_eq_true, if_false, hsub]
  unfold Refined.UpdateVelocity_frictionDivisors Refined.ApplyFrictionTraced
  simp only [h0]
  norm_num [Refined.fFriction, Refined.fStopSpeed, platformMove, playerControllerIn]
  decide

/-- C17, amended. Surface-relative frame, initial and refined model.  When the gate
applies, `hook_MoveCharacter` leaves velocity
`UpdateVelocity move (v - s) state deltaTime + s`, and adding the same offset `o` to both
`v` and `s` adds exactly `o` to the result.  With input length below the `float`
constant `1e-4f` of the source (`13743895 / 2^37`), `deltaTime ≥ 0` and, in the refined
model, a ground normal with `groundNormal.z ≥ 0`, a character whose velocity equals the
surface velocity ends the tick with velocity exactly `s`, and no division
`friction / speed` is evaluated. -/
theorem C17_surface_frame (host : Host)
    (orig : CharacterMoveParams ℝ → AlignedVector4 ℝ →
      CharacterMoveParams ℝ × AlignedVector4 ℝ)
    (charCtrl : bhkCharacterController ℝ) (move : CharacterMoveParams ℝ)
    (v o : AlignedVector4 ℝ) :
    (charCtrl.handle = host.playerController →
      (Initial.hook_MoveCharacter Real.sqrt host orig charCtrl move v).2
        = Initial.UpdateVelocity Real.sqrt move (v - move.surfaceVelocity)
            charCtrl.hkState charCtrl.deltaTime + move.surfaceVelocity ∧
      (Initial.hook_MoveCharacter Real.sqrt host orig charCtrl
          { move with surfaceVelocity := move.surfaceVelocity + o } (v + o)).2
        = (Initial.hook_MoveCharacter Real.sqrt host orig charCtrl move v).2 + o ∧
      (move.input.toNi.Length Real.sqrt < float_1e_4 → 0 ≤ charCtrl.deltaTime →
        v = move.surfaceVelocity →
        (Initial.hook_MoveCharacter Real.sqrt host orig charCtrl move v).2
          = move.surfaceVelocity ∧
        Initial.hook_MoveCharacter_frictionDivisors Real.sqrt host charCtrl move v = [])) ∧
    (ShouldUsePhysics host charCtrl = true →
      (Refined.hook_MoveCharacter Real.sqrt host orig charCtrl move v).2
        = Refined.UpdateVelocity Real.sqrt move (v - move.surfaceVelocity)
            charCtrl.hkState charCtrl.deltaTime + move.surfaceVelocity ∧
      (Refined.hook_MoveCharacter Real.sqrt host orig charCtrl
          { move with surfaceVelocity := move.surfaceVelocity + o } (v + o)).2
        = (Refined.hook_MoveCharacter Real.sqrt host orig charCtrl move v).2 + o ∧
      (move.input.toNi.Length Real.sqrt < float_1e_4 → 0 ≤ charCtrl.deltaTime →
        0 ≤ move.groundNormal.z → v = move.surfaceVelocity →
        (Refined.hook_MoveCharacter Real.sqrt host orig charCtrl move v).2
          = move.surfaceVelocity ∧
        Refined.hook_MoveCharacter_frictionDivisors Real.sqrt host charCtrl move v = [])) := by
  constructor
  · intro hplayer
    refine ⟨?_, ?_, ?_⟩
    · rw [Initial.hook_MoveCharacter_of_player host orig charCtrl move v hplayer]
    · rw [Initial.hook_MoveCharacter_of_player host orig charCtrl move v hplayer,
        Initial.hook_MoveCharacter_of_player host orig charCtrl _ (v + o) hplayer]
      simp only [vec_add_sub_add, Initial.UpdateVelocity_surfaceVelocity_initial, vec_add_assoc]
    · intro hin hdt hvs
      rw [Initial.hook_MoveCharacter_of_player host orig charCtrl move v hplayer, hvs]
      simp only [vec_sub_self]
      rw [Initial.UpdateVelocity_rest_initial move _ _ hin hdt, vec_zero_add]
      refine ⟨rfl, ?_⟩
      unfold Initial.hook_MoveCharacter_frictionDivisors
        Initial.UpdateVelocity_frictionDivisors
      simp only [vec_sub_self, Initial.ApplyFrictionTraced_rest_initial move _ hdt]
      split_ifs <;> rfl
  · intro hgate
    refine ⟨?_, ?_, ?_⟩
    · rw [Refined.hook_MoveCharacter_of_gate host orig charCtrl move v hgate]
    · rw [Refined.hook_MoveCharacter_of_gate host orig charCtrl move v hgate,
        Refined.hook_MoveCharacter_of_gate host orig charCtrl _ (v + o) hgate]
      simp only [vec_add_sub_add, Refined.UpdateVelocity_surfaceVelocity, vec_add_assoc]
    · intro hin hdt hn hvs
      rw [Refined.hook_MoveCharacter_of_gate host orig charCtrl move v hgate, hvs]
      simp only [vec_sub_self]
      rw [Refined.UpdateVelocity_rest move _ _ hin hn hdt, vec_zero_add]
      refine ⟨rfl, ?_⟩
      unfold Refined.hook_MoveCharacter_frictionDivisors
        Refined.UpdateVelocity_frictionDivisors
      simp only [vec_sub_self, Refined.ApplyFrictionTraced_rest move _ hn hdt]
      split_ifs <;> rfl

/-- C17, amended, on a flat surface moving with `s = (1, 2, 3)`: a player standing
still on it (`v = s`) keeps velocity `s` in both models. -/
theorem C17_surface_frame_witness :
    (Initial.hook_MoveCharacter Real.sqrt (hostWithMode 0) restoreVelocity
        (playerControllerIn kState_OnGround 1) (platformMove ⟨0, 0, 1, 0⟩ ⟨1, 2, 3, 0⟩)
        ⟨1, 2, 3, 0⟩).2 = ⟨1, 2, 3, 0⟩ ∧
    (Refined.hook_MoveCharacter Real.sqrt (hostWithMode 0) restoreVelocity
        (playerControllerIn kState_OnGround 1) (platformMove ⟨0, 0, 1, 0⟩ ⟨1, 2, 3, 0⟩)
        ⟨1, 2, 3, 0⟩).2 = ⟨1, 2, 3, 0⟩ :=
  ⟨(((C17_surface_frame (hostWithMode 0) restoreVelocity
        (playerControllerIn kState_OnGround 1) (platformMove ⟨0, 0, 1, 0⟩ ⟨1, 2, 3, 0⟩)
        ⟨1, 2, 3, 0⟩ ⟨0, 0, 0, 0⟩).1 rfl).2.2
      (by norm_num [platformMove, AlignedVector4.toNi, NiVector3.Length, float_1e_4])
      (by norm_num [playerControllerIn]) rfl).1,
   (((C17_surface_frame (hostWithMode 0) restoreVelocity
        (playerControllerIn kState_OnGround 1) (platformMove ⟨0, 0, 1, 0⟩ ⟨1, 2, 3, 0⟩)
        ⟨1, 2, 3, 0⟩ ⟨0, 0, 0, 0⟩).2 (by decide)).2.2
      (by norm_num [platformMove, AlignedVector4.toNi, NiVector3.Length, float_1e_4])
      (by norm_num [playerControllerIn]) (by norm_num [platformMove]) rfl).1⟩

end FrameClaims

/-! ## Initial and refined model on flat ground -/

section RefinementClaims

open StateType

/-- For orthonormal `forward` and `up` the raw move direction is as long as the input. -/
theorem raw_direction_Length_eq_input (move : CharacterMoveParams ℝ)
    (hf : move.forward.toNi.DotProduct move.forward.toNi = 1)
    (hu : move.up.toNi.DotProduct move.up.toNi = 1)
    (hfu : move.forward.toNi.DotProduct move.up.toNi = 0) :
    (move.forward * (-move.input.x)
        + AlignedVector4.ofNi (move.forward.toNi.CrossProduct move.up.toNi) * move.input.y
        + move.up * move.input.z).toNi.Length Real.sqrt
      = move.input.toNi.Length Real.sqrt := by
  simp only [NiVector3.DotProduct, AlignedVector4.toNi] at hf hu hfu
  simp only [AlignedVector4.add_def, AlignedVector4.scale_def, AlignedVector4.toNi,
    AlignedVector4.ofNi, NiVector3.CrossProduct, NiVector3.Length]
  congr 1
  linear_combination
    (move.input.x * move.input.x
      + move.input.y * move.input.y
        * (move.up.x * move.up.x + move.up.y * move.up.y + move.up.z * move.up.z)) * hf
    + (move.input.z * move.input.z + move.input.y * move.input.y) * hu
    + (-(move.input.y * move.input.y)
        * (move.forward.x * move.up.x + move.forward.y * move.up.y
          + move.forward.z * move.up.z)
      - 2 * move.input.x * move.input.z) * hfu

/-- On flat ground with orthonormal `forward` and `up`, the move vector of the
initial `UpdateVelocity` (built from the input scaled by `1 / moveLength`) is the move
vector returned by the refined `GetMoveVector`. -/
theorem moveVector_flat_eq (move : CharacterMoveParams ℝ)
    (hnz : move.groundNormal.z = 1)
    (hf : move.forward.toNi.DotProduct move.forward.toNi = 1)
    (hu : move.up.toNi.DotProduct move.up.toNi = 1)
    (hfu : move.forward.toNi.DotProduct move.up.toNi = 0)
    (hin : ¬ move.input.toNi.Length Real.sqrt < float_1e_4) :
    (Refined.GetMoveVector Real.sqrt move).toNi
      = (move.forward * (-(move.input * (1 / move.input.toNi.Length Real.sqrt)).x)
          + AlignedVector4.ofNi (move.forward.toNi.CrossProduct move.up.toNi)
              * (move.input * (1 / move.input.toNi.Length Real.sqrt)).y
          + move.up * (move.input * (1 / move.input.toNi.Length Real.sqrt)).z).toNi := by
  have hL : move.input.toNi.Length Real.sqrt ≠ 0 := by
    intro h0
    apply hin
    rw [h0]
    exact float_1e_4_pos
  have hraw := raw_direction_Length_eq_input move hf hu hfu
  unfold Refined.GetMoveVector
  simp only [hnz]
  rw [if_pos (Or.inr (by norm_num)), AlignedVector4.toNi_ofNi]
  unfold NiVector3.Normalize
  rw [hraw]
  generalize move.input.toNi.Length Real.sqrt = L at hL
  simp only [AlignedVector4.add_def, AlignedVector4.scale_def, AlignedVector4.toNi,
    AlignedVector4.ofNi, NiVector3.CrossProduct, NiVector3.mk.injEq]
  refine ⟨?_, ?_, ?_⟩ <;> field_simp <;> ring

/-- With a ground normal of `z = 1` the refined friction is the initial friction. -/
theorem ApplyFriction_flat_eq (move : CharacterMoveParams ℝ) (v : AlignedVector4 ℝ)
    (deltaTime : ℝ) (hnz : move.groundNormal.z = 1) :
    Refined.ApplyFriction Real.sqrt move v deltaTime
      = Initial.ApplyFriction Real.sqrt move v deltaTime := by
  unfold Refined.ApplyFriction Initial.ApplyFriction
  simp only [hnz, mul_one, Refined.fFriction, Initial.fFriction, Refined.fStopSpeed,
    Initial.fStopSpeed]

/-- With a ground normal of `z = 1` and a state other than `InAir`, the refined
acceleration is the initial acceleration clamped to `max moveLength |v|`. -/
theorem ApplyAcceleration_flat_eq (move : CharacterMoveParams ℝ) (v : AlignedVector4 ℝ)
    (state : StateType) (m : NiVector3 ℝ) (moveLength deltaTime : ℝ)
    (hs : state ≠ kState_InAir) (hnz : move.groundNormal.z = 1) :
    Refined.ApplyAcceleration Real.sqrt move v state m moveLength deltaTime
      = clampLength Real.sqrt (Initial.ApplyAcceleration move v state m moveLength deltaTime)
          (max moveLength (v.toNi.Length Real.sqrt)) := by
  unfold Refined.ApplyAcceleration Initial.ApplyAcceleration clampLength
  simp only [decide_eq_true_eq, if_neg hs, hnz, mul_one, Refined.fAcceleration,
    Initial.fAcceleration]
  by_cases hsp : v.toNi.DotProduct m ≥ moveLength
  · rw [if_pos hsp, if_neg (not_lt.mpr hsp), if_pos (le_max_right _ _)]
  · rw [if_neg hsp, if_pos (not_le.mp hsp)]
    by_cases hcap : (v + AlignedVector4.ofNi
        (m * min (6 * moveLength * deltaTime) (moveLength - v.toNi.DotProduct m))).toNi.Length
          Real.sqrt > max moveLength (v.toNi.Length Real.sqrt)
    · rw [if_pos hcap, if_neg (not_le.mpr hcap)]
    · rw [if_neg hcap, if_pos (not_lt.mp hcap)]

/-- On flat ground with orthonormal `forward` and `up` and a state other than `InAir`,
the refined `UpdateVelocity` is the initial `UpdateVelocity` clamped to the speed cap. -/
theorem UpdateVelocity_flat_eq (move : CharacterMoveParams ℝ) (v : AlignedVector4 ℝ)
    (state : StateType) (deltaTime : ℝ) (hs : state ≠ kState_InAir)
    (hnz : move.groundNormal.z = 1)
    (hf : move.forward.toNi.DotProduct move.forward.toNi = 1)
    (hu : move.up.toNi.DotProduct move.up.toNi = 1)
    (hfu : move.forward.toNi.DotProduct move.up.toNi = 0) :
    Refined.UpdateVelocity Real.sqrt move v state deltaTime
      = clampLength Real.sqrt (Initial.UpdateVelocity Real.sqrt move v state deltaTime)
          (max (move.input.toNi.Length Real.sqrt)
            ((Initial.ApplyFriction Real.sqrt move v deltaTime).toNi.Length Real.sqrt)) := by
  unfold Refined.UpdateVelocity Initial.UpdateVelocity
  simp only [if_pos hs, ApplyFriction_flat_eq move v deltaTime hnz]
  by_cases hin : move.input.toNi.Length Real.sqrt < float_1e_4
  · rw [if_pos hin, if_neg (not_le.mpr hin)]
    unfold clampLength
    rw [if_pos (le_max_right _ _)]
  · rw [if_neg hin, if_pos (not_lt.mp hin), moveVector_flat_eq move hnz hf hu hfu hin,
      ApplyAcceleration_flat_eq _ _ _ _ _ _ hs hnz]

/-- C20, amended. Initial versus refined model on flat ground: for every state other than
`InAir`, ground normal `(0, 0, 1)`, orthonormal `forward` and `up`, every velocity, input
and `deltaTime`, the friction steps of the two models coincide and the refined
`UpdateVelocity` result is the initial result clamped to the speed cap
`c = max |input| (post-friction speed)`: equal to the initial result when that
result's length is at most `c` (and always when the input is shorter than the `float`
constant `1e-4f` of the source, `13743895 / 2^37`), otherwise the initial result
rescaled by `c / length`, which has length `c`. -/
theorem C20_refined_is_clamped_initial (move : CharacterMoveParams ℝ)
    (v : AlignedVector4 ℝ) (state : StateType) (deltaTime : ℝ)
    (hs : state ≠ kState_InAir)
    (hnormal : move.groundNormal.toNi = ⟨0, 0, 1⟩)
    (hf : move.forward.toNi.DotProduct move.forward.toNi = 1)
    (hu : move.up.toNi.DotProduct move.up.toNi = 1)
    (hfu : move.forward.toNi.DotProduct move.up.toNi = 0) :
    Refined.ApplyFriction Real.sqrt move v deltaTime
      = Initial.ApplyFriction Real.sqrt move v deltaTime ∧
    Refined.UpdateVelocity Real.sqrt move v state deltaTime
      = clampLength Real.sqrt (Initial.UpdateVelocity Real.sqrt move v state deltaTime)
          (max (move.input.toNi.Length Real.sqrt)
            ((Initial.ApplyFriction Real.sqrt move v deltaTime).toNi.Length Real.sqrt)) ∧
    ((Initial.UpdateVelocity Real.sqrt move v state deltaTime).toNi.Length Real.sqrt
        ≤ max (move.input.toNi.Length Real.sqrt)
            ((Initial.ApplyFriction Real.sqrt move v deltaTime).toNi.Length Real.sqrt) →
      Refined.UpdateVelocity Real.sqrt move v state deltaTime
        = Initial.UpdateVelocity Real.sqrt move v state deltaTime) ∧
    (move.input.toNi.Length Real.sqrt < float_1e_4 →
      Refined.UpdateVelocity Real.sqrt move v state deltaTime
        = Initial.UpdateVelocity Real.sqrt move v state deltaTime) ∧
    (¬ (Initial.UpdateVelocity Real.sqrt move v state deltaTime).toNi.Length Real.sqrt
        ≤ max (move.input.toNi.Length Real.sqrt)
            ((Initial.ApplyFriction Real.sqrt move v deltaTime).toNi.Length Real.sqrt) →
      Refined.UpdateVelocity Real.sqrt move v state deltaTime
        = Initial.UpdateVelocity Real.sqrt move v state deltaTime
          * (max (move.input.toNi.Length Real.sqrt)
              ((Initial.ApplyFriction Real.sqrt move v deltaTime).toNi.Length Real.sqrt)
            / (Initial.UpdateVelocity Real.sqrt move v state deltaTime).toNi.Length
                Real.sqrt) ∧
      (Refined.UpdateVelocity Real.sqrt move v state deltaTime).toNi.Length Real.sqrt
        = max (move.input.toNi.Length Real.sqrt)
            ((Initial.ApplyFriction Real.sqrt move v deltaTime).toNi.Length Real.sqrt)) := by
  have hnz : move.groundNormal.z = 1 := congrArg NiVector3.z hnormal
  have hmain := UpdateVelocity_flat_eq move v state deltaTime hs hnz hf hu hfu
  have hc : 0 ≤ max (move.input.toNi.Length Real.sqrt)
      ((Initial.ApplyFriction Real.sqrt move v deltaTime).toNi.Length Real.sqrt) :=
    le_trans (NiVector3.Length_nonneg _) (le_max_left _ _)
  refine ⟨ApplyFriction_flat_eq move v deltaTime hnz, hmain, ?_, ?_, ?_⟩
  · intro hle
    rw [hmain]
    unfold clampLength
    rw [if_pos hle]
  · intro hin
    unfold Refined.UpdateVelocity Initial.UpdateVelocity
    simp only [if_pos hs, ApplyFriction_flat_eq move v deltaTime hnz]
    rw [if_pos hin, if_neg (not_le.mpr hin)]
  · intro hgt
    have hval : Refined.UpdateVelocity Real.sqrt move v state deltaTime
        = Initial.UpdateVelocity Real.sqrt move v state deltaTime
          * (max (move.input.toNi.Length Real.sqrt)
              ((Initial.ApplyFriction Real.sqrt move v deltaTime).toNi.Length Real.sqrt)
            / (Initial.UpdateVelocity Real.sqrt move v state deltaTime).toNi.Length
                Real.sqrt) := by
      rw [hmain]
      unfold clampLength
      rw [if_neg hgt]
    refine ⟨hval, ?_⟩
    rw [hval]
    exact AlignedVector4.Length_rescale _ _ hc (not_le.mp hgt)

/-- C20, amended, on flat ground with input `(0, 1, 0)`, velocity `(10, 0, 0)`, state
`OnGround` and `deltaTime = 1/100`. -/
theorem C20_refined_is_clamped_initial_witness :
    Refined.UpdateVelocity Real.sqrt flatMove ⟨10, 0, 0, 0⟩ kState_OnGround (1 / 100)
      = clampLength Real.sqrt
          (Initial.UpdateVelocity Real.sqrt flatMove ⟨10, 0, 0, 0⟩ kState_OnGround (1 / 100))
          (max ((flatMove : CharacterMoveParams ℝ).input.toNi.Length Real.sqrt)
            ((Initial.ApplyFriction Real.sqrt flatMove ⟨10, 0, 0, 0⟩
              (1 / 100)).toNi.Length Real.sqrt)) :=
  (C20_refined_is_clamped_initial flatMove ⟨10, 0, 0, 0⟩ kState_OnGround (1 / 100)
    (by decide)
    (by simp [flatMove, AlignedVector4.toNi])
    (by simp [flatMove, AlignedVector4.toNi, NiVector3.DotProduct])
    (by simp [flatMove, AlignedVector4.toNi, NiVector3.DotProduct])
    (by simp [flatMove, AlignedVector4.toNi, NiVector3.DotProduct])).2.1

end RefinementClaims

/-! ## The input-length threshold -/

section ThresholdClaims

open StateType

/-- A vector whose squared lanes sum to `l * l` with `l ≥ 0` has length `l`. -/
theorem NiVector3.Length_eq_of_sq (v : NiVector3 ℝ) (l : ℝ) (hl : 0 ≤ l)
    (h : v.x * v.x + v.y * v.y + v.z * v.z = l * l) : v.Length Real.sqrt = l := by
  unfold NiVector3.Length
  rw [h]
  exact Real.sqrt_mul_self hl

theorem thresholdInput_Length (s : AlignedVector4 ℝ) :
    (thresholdInputMove s).input.toNi.Length Real.sqrt = float_1e_4 :=
  NiVector3.Length_eq_of_sq _ _ float_1e_4_pos.le (by simp [thresholdInputMove, AlignedVector4.toNi])

/-- At the threshold input `GetMoveVector` returns the direction `(1, 0, 0)`. -/
theorem Refined.GetMoveVector_thresholdInput (s : AlignedVector4 ℝ) :
    Refined.GetMoveVector Real.sqrt (thresholdInputMove s) = ⟨1, 0, 0, 0⟩ := by
  have hraw : (⟨float_1e_4, 0, 0⟩ : NiVector3 ℝ).Length Real.sqrt = float_1e_4 :=
    NiVector3.Length_eq_of_sq _ _ float_1e_4_pos.le (by simp)
  have hne : (float_1e_4 : ℝ) ≠ 0 := float_1e_4_pos.ne'
  unfold Refined.GetMoveVector
  simp only [thresholdInputMove, AlignedVector4.toNi, AlignedVector4.ofNi,
    NiVector3.CrossProduct, AlignedVector4.scale_def, AlignedVector4.add_def]
  rw [if_pos (Or.inr (by norm_num))]
  have hvec : (⟨0 * -0 + (1 * 1 - 0 * 0) * float_1e_4 + 0 * 0,
      1 * -0 + (0 * 0 - 0 * 1) * float_1e_4 + 0 * 0,
      0 * -0 + (0 * 0 - 1 * 0) * float_1e_4 + 1 * 0⟩ : NiVector3 ℝ)
      = ⟨float_1e_4, 0, 0⟩ := by
    simp
  rw [hvec]
  simp only [NiVector3.Normalize, hraw]
  simp [hne]

/-- Refined `UpdateVelocity` from rest at the threshold input, state `OnGround`,
`deltaTime = 1`: the velocity is accelerated to `(1e-4f, 0, 0)`. -/
theorem Refined.UpdateVelocity_thresholdInput (s : AlignedVector4 ℝ) :
    Refined.UpdateVelocity Real.sqrt (thresholdInputMove s) ⟨0, 0, 0, 0⟩ kState_OnGround 1
      = ⟨float_1e_4, 0, 0, 0⟩ := by
  have hm : (⟨1, 0, 0, 0⟩ : AlignedVector4 ℝ).toNi.Length Real.sqrt = 1 :=
    NiVector3.Length_eq_of_sq _ _ zero_le_one (by simp [AlignedVector4.toNi])
  unfold Refined.UpdateVelocity
  simp only [thresholdInput_Length, Refined.GetMoveVector_thresholdInput]
  rw [if_pos (le_refl _), if_pos (show kState_OnGround ≠ kState_InAir by decide),
    Refined.ApplyFriction_rest_flat _ 1 rfl zero_le_one,
    Refined.ApplyAcceleration_rest_flat _ _ _ 1 rfl hm float_1e_4_pos zero_le_one]
  have hmin : min (6 * (float_1e_4 : ℝ) * 1) float_1e_4 = float_1e_4 := by
    apply min_eq_right
    linarith [float_1e_4_pos]
  rw [hmin]
  simp [AlignedVector4.scale_def, AlignedVector4.ofNi, AlignedVector4.toNi]

/-- Initial `UpdateVelocity` from rest at the threshold input, state `OnGround`,
`deltaTime = 1`: the velocity is accelerated to `(1e-4f, 0, 0)`. -/
theorem Initial.UpdateVelocity_thresholdInput_initial (s : AlignedVector4 ℝ) :
    Initial.UpdateVelocity Real.sqrt (thresholdInputMove s) ⟨0, 0, 0, 0⟩ kState_OnGround 1
      = ⟨float_1e_4, 0, 0, 0⟩ := by
  have hne : (float_1e_4 : ℝ) ≠ 0 := float_1e_4_pos.ne'
  have hfr : Initial.ApplyFriction Real.sqrt (thresholdInputMove s) ⟨0, 0, 0, 0⟩ 1
      = ⟨0, 0, 0, 0⟩ := by
    rw [← Initial.ApplyFrictionTraced_fst_initial,
      Initial.ApplyFrictionTraced_rest_initial _ 1 zero_le_one]
  have hmin : min (6 * (float_1e_4 : ℝ) * 1) float_1e_4 = float_1e_4 := by
    apply min_eq_right
    linarith [float_1e_4_pos]
  unfold Initial.UpdateVelocity
  simp only [thresholdInput_Length]
  rw [if_neg (lt_irrefl _), if_pos (show kState_OnGround ≠ kState_InAir by decide), hfr]
  unfold Initial.ApplyAcceleration
  simp [thresholdInputMove, AlignedVector4.toNi, AlignedVector4.ofNi,
    NiVector3.CrossProduct, NiVector3.DotProduct, AlignedVector4.scale_def,
    AlignedVector4.add_def, NiVector3.smul_def, Initial.fAcceleration, hne,
    float_1e_4_pos, hmin]

/-- C5, as stated, fails at the input length `1e-4f`: the `float` constant the code
compares with is `13743895 / 2^37`, below `1/10000`.  For the input `(0, 1e-4f, 0)` on
flat ground, zero velocity, state `OnGround` and `deltaTime = 1` the input is shorter
than `1/10000`, friction leaves the zero vector, and both models accelerate to
`(1e-4f, 0, 0)`. -/
theorem C5_no_input_threshold_counterexample :
    (thresholdInputMove (⟨0, 0, 0, 0⟩ : AlignedVector4 ℝ)).input.toNi.Length Real.sqrt
      < 1 / 10000 ∧
    kState_OnGround ≠ kState_InAir ∧
    Initial.ApplyFriction Real.sqrt (thresholdInputMove ⟨0, 0, 0, 0⟩) ⟨0, 0, 0, 0⟩ 1
      = ⟨0, 0, 0, 0⟩ ∧
    Initial.UpdateVelocity Real.sqrt (thresholdInputMove ⟨0, 0, 0, 0⟩) ⟨0, 0, 0, 0⟩
      kState_OnGround 1 = ⟨float_1e_4, 0, 0, 0⟩ ∧
    Initial.UpdateVelocity Real.sqrt (thresholdInputMove ⟨0, 0, 0, 0⟩) ⟨0, 0, 0, 0⟩
        kState_OnGround 1
      ≠ Initial.ApplyFriction Real.sqrt (thresholdInputMove ⟨0, 0, 0, 0⟩) ⟨0, 0, 0, 0⟩ 1 ∧
    Refined.ApplyFriction Real.sqrt (thresholdInputMove ⟨0, 0, 0, 0⟩) ⟨0, 0, 0, 0⟩ 1
      = ⟨0, 0, 0, 0⟩ ∧
    Refined.UpdateVelocity Real.sqrt (thresholdInputMove ⟨0, 0, 0, 0⟩) ⟨0, 0, 0, 0⟩
      kState_OnGround 1 = ⟨float_1e_4, 0, 0, 0⟩ ∧
    Refined.UpdateVelocity Real.sqrt (thresholdInputMove ⟨0, 0, 0, 0⟩) ⟨0, 0, 0, 0⟩
        kState_OnGround 1
      ≠ Refined.ApplyFriction Real.sqrt (thresholdInputMove ⟨0, 0, 0, 0⟩) ⟨0, 0, 0, 0⟩ 1 := by
  have hI : Initial.ApplyFriction Real.sqrt (thresholdInputMove ⟨0, 0, 0, 0⟩) ⟨0, 0, 0, 0⟩ 1
      = ⟨0, 0, 0, 0⟩ := by
    rw [← Initial.ApplyFrictionTraced_fst_initial,
      Initial.ApplyFrictionTraced_rest_initial _ 1 zero_le_one]
  have hR : Refined.ApplyFriction Real.sqrt (thresholdInputMove ⟨0, 0, 0, 0⟩) ⟨0, 0, 0, 0⟩ 1
      = ⟨0, 0, 0, 0⟩ :=
    Refined.ApplyFriction_rest_flat _ 1 rfl zero_le_one
  have hne : (⟨float_1e_4, 0, 0, 0⟩ : AlignedVector4 ℝ) ≠ ⟨0, 0, 0, 0⟩ := by
    intro h
    exact float_1e_4_pos.ne' (congrArg AlignedVector4.x h)
  refine ⟨?_, by decide, hI, Initial.UpdateVelocity_thresholdInput_initial _, ?_, hR,
    Refined.UpdateVelocity_thresholdInput _, ?_⟩
  · rw [thresholdInput_Length]
    exact float_1e_4_lt
  · rw [Initial.UpdateVelocity_thresholdInput_initial, hI]
    exact hne
  · rw [Refined.UpdateVelocity_thresholdInput, hR]
    exact hne

/-- C17, as stated, fails at the input length `1e-4f` (below `1/10000`): on flat
ground moving with `s = (1, 2, 3)`, a player with `v = s`, input `(0, 1e-4f, 0)`, state
`OnGround` and `deltaTime = 1` ends the tick with velocity `(1 + 1e-4f, 2, 3)`, not `s`,
in both models. -/
theorem C17_surface_frame_counterexample :
    Refined.ShouldUsePhysics (hostWithMode 0) (playerControllerIn kState_OnGround (1 : ℝ)) = true ∧
    (thresholdInputMove (⟨1, 2, 3, 0⟩ : AlignedVector4 ℝ)).input.toNi.Length Real.sqrt
      < 1 / 10000 ∧
    (0 : ℝ) ≤ (playerControllerIn kState_OnGround (1 : ℝ)).deltaTime ∧
    (⟨1, 2, 3, 0⟩ : AlignedVector4 ℝ)
      = (thresholdInputMove (⟨1, 2, 3, 0⟩ : AlignedVector4 ℝ)).surfaceVelocity ∧
    (Initial.hook_MoveCharacter Real.sqrt (hostWithMode 0) restoreVelocity
        (playerControllerIn kState_OnGround 1) (thresholdInputMove ⟨1, 2, 3, 0⟩)
        ⟨1, 2, 3, 0⟩).2 = ⟨float_1e_4 + 1, 2, 3, 0⟩ ∧
    (Refined.hook_MoveCharacter Real.sqrt (hostWithMode 0) restoreVelocity
        (playerControllerIn kState_OnGround 1) (thresholdInputMove ⟨1, 2, 3, 0⟩)
        ⟨1, 2, 3, 0⟩).2 = ⟨float_1e_4 + 1, 2, 3, 0⟩ ∧
    (Refined.hook_MoveCharacter Real.sqrt (hostWithMode 0) restoreVelocity
        (playerControllerIn kState_OnGround 1) (thresholdInputMove ⟨1, 2, 3, 0⟩)
        ⟨1, 2, 3, 0⟩).2 ≠ ⟨1, 2, 3, 0⟩ := by
  have hgate : Refined.ShouldUsePhysics (hostWithMode 0)
      (playerControllerIn kState_OnGround (1 : ℝ)) = true := by decide
  have hsub : (⟨1, 2, 3, 0⟩ : AlignedVector4 ℝ)
      - (thresholdInputMove (⟨1, 2, 3, 0⟩ : AlignedVector4 ℝ)).surfaceVelocity
      = ⟨0, 0, 0, 0⟩ := vec_sub_self _
  have hadd : (⟨float_1e_4, 0, 0, 0⟩ : AlignedVector4 ℝ)
      + (thresholdInputMove (⟨1, 2, 3, 0⟩ : AlignedVector4 ℝ)).surfaceVelocity
      = ⟨float_1e_4 + 1, 2, 3, 0⟩ := by
    simp [thresholdInputMove, AlignedVector4.add_def]
  have hI : (Initial.hook_MoveCharacter Real.sqrt (hostWithMode 0) restoreVelocity
      (playerControllerIn kState_OnGround 1) (thresholdInputMove ⟨1, 2, 3, 0⟩)
      ⟨1, 2, 3, 0⟩).2 = ⟨float_1e_4 + 1, 2, 3, 0⟩ := by
    rw [Initial.hook_MoveCharacter_of_player _ _ _ _ _ rfl, hsub]
    simp only [playerControllerIn]
    rw [Initial.UpdateVelocity_thresholdInput_initial, hadd]
  have hR : (Refined.hook_MoveCharacter Real.sqrt (hostWithMode 0) restoreVelocity
      (playerControllerIn kState_OnGround 1) (thresholdInputMove ⟨1, 2, 3, 0⟩)
      ⟨1, 2, 3, 0⟩).2 = ⟨float_1e_4 + 1, 2, 3, 0⟩ := by
    rw [Refined.hook_MoveCharacter_of_gate _ _ _ _ _ hgate, hsub]
    simp only [playerControllerIn]
    rw [Refined.UpdateVelocity_thresholdInput, hadd]
  refine ⟨hgate, ?_, by norm_num [playerControllerIn], rfl, hI, hR, ?_⟩
  · rw [thresholdInput_Length]
    exact float_1e_4_lt
  · rw [hR]
    intro h
    have hx := congrArg AlignedVector4.x h
    simp only at hx
    linarith [float_1e_4_pos]

/-- Initial friction at velocity `(0, 5 + 1e-4f, 0)` with `deltaTime = 1/8`: the
friction is `5` and the velocity left is `(0, 1e-4f, 0)`. -/
theorem Initial.ApplyFriction_thresholdInput (s : AlignedVector4 ℝ) :
    Initial.ApplyFriction Real.sqrt (thresholdInputMove s) ⟨0, 5 + float_1e_4, 0, 0⟩ (1 / 8)
      = ⟨0, float_1e_4, 0, 0⟩ := by
  have he := float_1e_4_pos
  have he' := float_1e_4_lt
  have hlen : (⟨0, 5 + float_1e_4, 0, 0⟩ : AlignedVector4 ℝ).toNi.Length Real.sqrt
      = 5 + float_1e_4 :=
    NiVector3.Length_eq_of_sq _ _ (by linarith) (by simp [AlignedVector4.toNi])
  have hmax : max (5 + (float_1e_4 : ℝ)) Initial.fStopSpeed = 8 := by
    unfold Initial.fStopSpeed
    apply max_eq_right
    linarith
  have hne : (5 + float_1e_4 : ℝ) ≠ 0 := by linarith
  unfold Initial.ApplyFriction
  simp only [hlen, hmax, Initial.fFriction]
  rw [if_neg (by linarith)]
  simp only [AlignedVector4.scale_def, AlignedVector4.mk.injEq]
  refine ⟨by ring, ?_, by ring, by ring⟩
  field_simp

/-- Initial `UpdateVelocity` at the threshold input, velocity `(0, 5 + 1e-4f, 0)`,
state `OnGround`, `deltaTime = 1/8`: the result is `(3/4 * 1e-4f, 1e-4f, 0)`. -/
theorem Initial.UpdateVelocity_thresholdMoving_initial (s : AlignedVector4 ℝ) :
    Initial.UpdateVelocity Real.sqrt (thresholdInputMove s) ⟨0, 5 + float_1e_4, 0, 0⟩
      kState_OnGround (1 / 8) = ⟨3 / 4 * float_1e_4, float_1e_4, 0, 0⟩ := by
  have he := float_1e_4_pos
  have hne : (float_1e_4 : ℝ) ≠ 0 := he.ne'
  have hmin : min (6 * (float_1e_4 : ℝ) * 8⁻¹) float_1e_4 = 3 / 4 * float_1e_4 := by
    rw [min_eq_left (by linarith)]
    ring
  unfold Initial.UpdateVelocity
  simp only [thresholdInput_Length]
  rw [if_neg (lt_irrefl _), if_pos (show kState_OnGround ≠ kState_InAir by decide),
    Initial.ApplyFriction_thresholdInput]
  unfold Initial.ApplyAcceleration
  simp [thresholdInputMove, AlignedVector4.toNi, AlignedVector4.ofNi,
    NiVector3.CrossProduct, NiVector3.DotProduct, AlignedVector4.scale_def,
    AlignedVector4.add_def, NiVector3.smul_def, Initial.fAcceleration, hne,
    float_1e_4_pos, hmin]

/-- C20, as stated, fails at the input length `1e-4f` (below `1/10000`): on flat ground
with orthonormal `forward` and `up`, input `(0, 1e-4f, 0)`, velocity `(0, 5 + 1e-4f, 0)`,
state `OnGround` and `deltaTime = 1/8`, both models accelerate; the initial result is
`(3/4 * 1e-4f, 1e-4f, 0)` and the refined result is that vector clamped to the cap
`1e-4f`, `(3/5 * 1e-4f, 4/5 * 1e-4f, 0)`. -/
theorem C20_threshold_counterexample :
    kState_OnGround ≠ kState_InAir ∧
    (thresholdInputMove (⟨0, 0, 0, 0⟩ : AlignedVector4 ℝ)).groundNormal.toNi = ⟨0, 0, 1⟩ ∧
    (thresholdInputMove (⟨0, 0, 0, 0⟩ : AlignedVector4 ℝ)).forward.toNi.DotProduct
      (thresholdInputMove (⟨0, 0, 0, 0⟩ : AlignedVector4 ℝ)).forward.toNi = 1 ∧
    (thresholdInputMove (⟨0, 0, 0, 0⟩ : AlignedVector4 ℝ)).up.toNi.DotProduct
      (thresholdInputMove (⟨0, 0, 0, 0⟩ : AlignedVector4 ℝ)).up.toNi = 1 ∧
    (thresholdInputMove (⟨0, 0, 0, 0⟩ : AlignedVector4 ℝ)).forward.toNi.DotProduct
      (thresholdInputMove (⟨0, 0, 0, 0⟩ : AlignedVector4 ℝ)).up.toNi = 0 ∧
    (thresholdInputMove (⟨0, 0, 0, 0⟩ : AlignedVector4 ℝ)).input.toNi.Length Real.sqrt
      < 1 / 10000 ∧
    Initial.UpdateVelocity Real.sqrt (thresholdInputMove ⟨0, 0, 0, 0⟩)
      ⟨0, 5 + float_1e_4, 0, 0⟩ kState_OnGround (1 / 8)
      = ⟨3 / 4 * float_1e_4, float_1e_4, 0, 0⟩ ∧
    Refined.UpdateVelocity Real.sqrt (thresholdInputMove ⟨0, 0, 0, 0⟩)
      ⟨0, 5 + float_1e_4, 0, 0⟩ kState_OnGround (1 / 8)
      = ⟨3 / 5 * float_1e_4, 4 / 5 * float_1e_4, 0, 0⟩ ∧
    Refined.UpdateVelocity Real.sqrt (thresholdInputMove ⟨0, 0, 0, 0⟩)
        ⟨0, 5 + float_1e_4, 0, 0⟩ kState_OnGround (1 / 8)
      ≠ Initial.UpdateVelocity Real.sqrt (thresholdInputMove ⟨0, 0, 0, 0⟩)
        ⟨0, 5 + float_1e_4, 0, 0⟩ kState_OnGround (1 / 8) := by
  have he := float_1e_4_pos
  have hne : (float_1e_4 : ℝ) ≠ 0 := he.ne'
  have hf : (thresholdInputMove (⟨0, 0, 0, 0⟩ : AlignedVector4 ℝ)).forward.toNi.DotProduct
      (thresholdInputMove (⟨0, 0, 0, 0⟩ : AlignedVector4 ℝ)).forward.toNi = 1 := by
    simp [thresholdInputMove, AlignedVector4.toNi, NiVector3.DotProduct]
  have hu : (thresholdInputMove (⟨0, 0, 0, 0⟩ : AlignedVector4 ℝ)).up.toNi.DotProduct
      (thresholdInputMove (⟨0, 0, 0, 0⟩ : AlignedVector4 ℝ)).up.toNi = 1 := by
    simp [thresholdInputMove, AlignedVector4.toNi, NiVector3.DotProduct]
  have hfu : (thresholdInputMove (⟨0, 0, 0, 0⟩ : AlignedVector4 ℝ)).forward.toNi.DotProduct
      (thresholdInputMove (⟨0, 0, 0, 0⟩ : AlignedVector4 ℝ)).up.toNi = 0 := by
    simp [thresholdInputMove, AlignedVector4.toNi, NiVector3.DotProduct]
  have hI := Initial.UpdateVelocity_thresholdMoving_initial (⟨0, 0, 0, 0⟩ : AlignedVector4 ℝ)
  have hv1 : (⟨0, float_1e_4, 0, 0⟩ : AlignedVector4 ℝ).toNi.Length Real.sqrt = float_1e_4 :=
    NiVector3.Length_eq_of_sq _ _ he.le (by simp [AlignedVector4.toNi])
  have hlenI : (⟨3 / 4 * float_1e_4, float_1e_4, 0, 0⟩ : AlignedVector4 ℝ).toNi.Length
      Real.sqrt = 5 / 4 * float_1e_4 :=
    NiVector3.Length_eq_of_sq _ _ (by linarith) (by simp only [AlignedVector4.toNi]; ring)
  have hR : Refined.UpdateVelocity Real.sqrt (thresholdInputMove ⟨0, 0, 0, 0⟩)
      ⟨0, 5 + float_1e_4, 0, 0⟩ kState_OnGround (1 / 8)
      = ⟨3 / 5 * float_1e_4, 4 / 5 * float_1e_4, 0, 0⟩ := by
    rw [UpdateVelocity_flat_eq _ _ _ _ (by decide) rfl hf hu hfu, hI,
      Initial.ApplyFriction_thresholdInput, thresholdInput_Length, hv1, max_self]
    unfold clampLength
    rw [hlenI, if_neg (by linarith)]
    simp only [AlignedVector4.scale_def, AlignedVector4.mk.injEq]
    refine ⟨?_, ?_, by ring, by ring⟩
    · field_simp
      ring
    · field_simp
      ring
  refine ⟨by decide, rfl, hf, hu, hfu, ?_, hI, hR, ?_⟩
  · rw [thresholdInput_Length]
    exact float_1e_4_lt
  · rw [hR, hI]
    intro h
    have hx := congrArg AlignedVector4.x h
    simp only at hx
    linarith

end ThresholdClaims

end PlayerPhysics
